import Mathlib

/-!
# qaz: change-set and termination orchestration (`stacks/change.go`, `stacks/terminate.go`)

Shallow embedding of `(*Stack).Change` and `(*Stack).terminate`.

Both functions are sequential programs whose only interesting behaviour is the
order of the calls they make on external collaborators (CloudFormation client,
bucket helpers, logger, tailer goroutine, `done` channel) and the error they
return.  The embedding therefore computes, from the responses of the
collaborators (`Env`), the *trace* of effects performed and the final result.

* Go strings are Lean strings; `error` values are represented by their message.
* Pointers returned by the SDK (`*resp.Status`, `*i.ChangeSetName`, ...) are
  taken to be non-nil, as the SDK delivers them.
* The unbounded `for { ... }` poll loop takes a budget of iterations; running
  out of budget is reported as `Res.spin` (still looping), never as a return.
-/

namespace Qaz

/-! ## Data model -/

/-- Go `error` value, observed through `Error()`. -/
structure Error where
  msg : String
deriving DecidableEq, Repr

/-- Response of a call returning `(value, error)` of which the value is only used when the error is nil. -/
inductive Resp (α : Type) where
  | ok (a : α)
  | fail (err : Error)
deriving DecidableEq, Repr

/-- The error component of a response (`nil` is `none`). -/
def Resp.err {α : Type} : Resp α → Option Error
  | .ok _ => none
  | .fail e => some e

/-- Fields of `Stack` read by `Change` and `terminate` (session and credentials are only handed on). -/
structure Stack where
  Name : String
  Stackname : String
  Template : String
  Bucket : String
deriving DecidableEq, Repr

/-- Components of `time.Time` read through `Year()`, `Month()`, `Day()`, `Hour()`, `Minute()`. -/
structure Time where
  Year : Int
  Month : Int
  Day : Int
  Hour : Int
  Minute : Int
deriving DecidableEq, Repr

/-- Value of `cloudformation.CreateChangeSetInput` as filled in by `Change`; nil pointers and nil slices are `none` and `[]`. -/
structure CreateChangeSetInput where
  StackName : String
  ChangeSetName : String
  TemplateBody : Option String := none
  TemplateURL : Option String := none
  Capabilities : List String := []
deriving DecidableEq, Repr

/-- Value of `cloudformation.DescribeChangeSetInput`. -/
structure DescribeChangeSetInput where
  StackName : String
  ChangeSetName : String
deriving DecidableEq, Repr

/-- Value of `cloudformation.DeleteChangeSetInput`. -/
structure DeleteChangeSetInput where
  ChangeSetName : String
  StackName : String
deriving DecidableEq, Repr

/-- Value of `cloudformation.ListChangeSetsInput`. -/
structure ListChangeSetsInput where
  StackName : String
deriving DecidableEq, Repr

/-- Value of `cloudformation.ExecuteChangeSetInput`. -/
structure ExecuteChangeSetInput where
  StackName : String
  ChangeSetName : String
deriving DecidableEq, Repr

/-- Value of `cloudformation.DescribeStacksInput`. -/
structure DescribeStacksInput where
  StackName : String
deriving DecidableEq, Repr

/-- Value of `cloudformation.DeleteStackInput`. -/
structure DeleteStackInput where
  StackName : String
deriving DecidableEq, Repr

/-- Part of `cloudformation.DescribeChangeSetOutput` read by `Change`: the status, and the remaining detail as delivered. -/
structure DescribeChangeSetOutput where
  Status : String
  Detail : String := ""
deriving DecidableEq, Repr

/-- Fields of `cloudformation.ChangeSetSummary` read by `Change`. -/
structure ChangeSetSummary where
  CreationTime : Time
  ChangeSetName : String
  ExecutionStatus : String
deriving DecidableEq, Repr

/-- Logger levels used (`Log.Debug`, `Log.Info`, `Log.Warn`). -/
inductive Level where
  | debug
  | info
  | warn
deriving DecidableEq, Repr

/-- One observable effect, with the arguments passed and the response received. -/
inductive Event where
  | log (level : Level) (msg : String)
  | printf (out : String)
  | deployTimeParser (err : Option Error)
  | bucketExists (bucket : String) (found : Bool) (err : Option Error)
  | bucketCreate (bucket : String) (err : Option Error)
  | s3write (bucket key body : String) (resp : Resp String)
  | createChangeSet (params : CreateChangeSetInput) (err : Option Error)
  | describeChangeSet (params : DescribeChangeSetInput) (resp : Resp DescribeChangeSetOutput)
  | deleteChangeSet (params : DeleteChangeSetInput) (err : Option Error)
  | listChangeSets (params : ListChangeSetsInput) (resp : Resp (List ChangeSetSummary))
  | executeChangeSet (params : ExecuteChangeSetInput) (err : Option Error)
  | waitUntilStackUpdateComplete (params : DescribeStacksInput) (err : Option Error)
  | sleep (seconds : Nat)
  | goTail (command : String)
  | goTailWait (command : String)
  | doneSend
  | stackExists (found : Bool)
  | deleteStack (params : DeleteStackInput) (err : Option Error)
  | waitUntilStackDeleteComplete (params : DescribeStacksInput) (err : Option Error)
deriving DecidableEq, Repr

/-- Responses of the collaborators during one run; the code is sequential, so
each call site sees one fixed response (`describeChangeSet i` is the response to
the `i`-th describe call, counted from 0). -/
structure Env where
  /-- Response of `s.DeployTimeParser()`: the stack after the call, or the error. -/
  deployTimeParser : Stack → Resp Stack
  /-- Response of `bucket.Exists`: both results are used by the caller. -/
  bucketExists : Bool × Option Error
  /-- Response of `bucket.Create`. -/
  bucketCreate : Option Error
  /-- Value of `time.Now()`. -/
  timeNow : Time
  /-- Response of `bucket.S3write`: the URL, or the error. -/
  s3write : Resp String
  createChangeSet : Option Error
  describeChangeSet : Nat → Resp DescribeChangeSetOutput
  deleteChangeSet : Option Error
  listChangeSets : Resp (List ChangeSetSummary)
  executeChangeSet : Option Error
  waitUntilStackUpdateComplete : Option Error
  /-- Response of `s.StackExists()`. -/
  stackExists : Bool
  deleteStack : Option Error
  waitUntilStackDeleteComplete : Option Error
  /-- Function `Log.ColorMap`. -/
  colorMap : String → String
  /-- Function `Log.ColorString`. -/
  colorString : String → String → String
  /-- Function `Time.Format(time.RFC850)`. -/
  formatRFC850 : Time → String
  /-- Rendering of `*cloudformation.DescribeStacksInput` by `fmt`. -/
  showDescribeStacksInput : DescribeStacksInput → String
  /-- Rendering of `*cloudformation.DeleteStackInput` by `%s`. -/
  showDeleteStackInput : DeleteStackInput → String
  /-- Function `json.MarshalIndent(resp, "", "  ")`. -/
  marshalIndent : DescribeChangeSetOutput → Resp String

/-! ## Execution: traces with early return -/

/-- How a block of statements ends. -/
inductive Res (α : Type) where
  /-- Control reaches the end of the block, with value `a`. -/
  | next (a : α)
  /-- The enclosing function has executed `return err` (`none` is `nil`). -/
  | ret (err : Option Error)
  /-- The loop budget ran out: the function is still looping. -/
  | spin
deriving DecidableEq, Repr

/-- Effects performed by a block, in order, and how it ended. -/
structure Exec (α : Type) where
  trace : List Event
  res : Res α
deriving DecidableEq, Repr

/-- Sequencing: the second block runs only if the first reaches its end. -/
def Exec.bind {α β : Type} (x : Exec α) (f : α → Exec β) : Exec β :=
  match x.res with
  | .next a => ⟨x.trace ++ (f a).trace, (f a).res⟩
  | .ret e => ⟨x.trace, .ret e⟩
  | .spin => ⟨x.trace, .spin⟩

instance : Monad Exec where
  pure a := ⟨[], .next a⟩
  bind := Exec.bind

/-- Perform one effect. -/
def emit (e : Event) : Exec Unit := ⟨[e], .next ()⟩

/-- Go `return err`. -/
def ret {α : Type} (err : Option Error) : Exec α := ⟨[], .ret err⟩

/-- Go `if err != nil { return err }`. -/
def returnIfErr (err : Option Error) : Exec Unit :=
  match err with
  | some e => ret (some e)
  | none => pure ()

/-! ## Library functions -/

/-- Go `strings.Contains(s, substr)`: reports whether `substr` is within `s`. -/
def stringsContains (s substr : String) : Bool :=
  decide (substr.data <:+: s.data)

/-- Value of `cloudformation.CapabilityCapabilityIam`. -/
def CapabilityCapabilityIam : String := "CAPABILITY_IAM"

/-- Value of `cloudformation.CapabilityCapabilityNamedIam`. -/
def CapabilityCapabilityNamedIam : String := "CAPABILITY_NAMED_IAM"

/-- The `%d` verb on an `int`. -/
def fmtD (n : Int) : String := toString n

/-! ## `stacks/change.go` -/

/-- The `for { ... }` loop of case "create" (change.go:80-94); `i` counts the describe calls already made.
Leaving the loop by `break` is `Res.next`. -/
def pollLoop (env : Env) (s : Stack) (changename : String) (describeParams : DescribeChangeSetInput) :
    Nat → Nat → Exec Unit
  | 0, _ => ⟨[], .spin⟩
  | fuel + 1, i => do
    -- resp, err := svc.DescribeChangeSet(describeParams)
    emit (.describeChangeSet describeParams (env.describeChangeSet i))
    match env.describeChangeSet i with
    | .fail err => ret (some err)
    | .ok resp => do
      emit (.log .info ("Creating Change-Set: [" ++ changename ++ "] - " ++ env.colorMap resp.Status
        ++ " - " ++ s.Stackname))
      if resp.Status = "CREATE_COMPLETE" ∨ resp.Status = "FAILED" then
        pure ()
      else do
        emit (.sleep 1)
        pollLoop env s changename describeParams fuel (i + 1)

/-- The block "If bucket - upload to s3" of case "create" (change.go:34-61): fills in the template
source of the request. -/
def Change.templateSource (env : Env) (s : Stack) (params : CreateChangeSetInput) :
    Exec CreateChangeSetInput := do
  if s.Bucket ≠ "" then do
    -- exists, err = bucket.Exists(s.Bucket, s.Session)
    emit (.bucketExists s.Bucket env.bucketExists.1 env.bucketExists.2)
    match env.bucketExists.2 with
    | some err =>
      emit (.log .warn ("Received Error when checking if [" ++ s.Bucket ++ "] exists: " ++ err.msg))
    | none => pure ()
    if !env.bucketExists.1 then do
      emit (.log .info ("Creating Bucket [" ++ s.Bucket ++ "]"))
      emit (.bucketCreate s.Bucket env.bucketCreate)
      returnIfErr env.bucketCreate
    let t := env.timeNow
    let tStamp := fmtD t.Year ++ "-" ++ fmtD t.Month ++ "-" ++ fmtD t.Day ++ "_" ++ fmtD t.Hour
      ++ fmtD t.Minute
    -- url, err = bucket.S3write(...)
    emit (.s3write s.Bucket (s.Stackname ++ "_" ++ tStamp ++ ".template") s.Template env.s3write)
    match env.s3write with
    | .fail err => ret (some err)
    | .ok url => pure { params with TemplateURL := some url }
  else
    pure { params with TemplateBody := some s.Template }

/-- Case "create" of `Change` (change.go:20-94). -/
def Change.create (fuel : Nat) (env : Env) (s : Stack) (changename : String) : Exec Unit := do
  -- err := s.DeployTimeParser()
  emit (.deployTimeParser (env.deployTimeParser s).err)
  match env.deployTimeParser s with
  | .fail err => ret (some err)
  | .ok s => do
    let params : CreateChangeSetInput := { StackName := s.Stackname, ChangeSetName := changename }
    emit (.log .debug ("Updated Template:\n" ++ s.Template))
    let params ← Change.templateSource env s params
    -- If IAM is being touched, add Capabilities
    let params :=
      if stringsContains s.Template "AWS::IAM" then
        { params with Capabilities := [CapabilityCapabilityIam, CapabilityCapabilityNamedIam] }
      else params
    emit (.createChangeSet params env.createChangeSet)
    returnIfErr env.createChangeSet
    let describeParams : DescribeChangeSetInput := { StackName := s.Stackname, ChangeSetName := changename }
    pollLoop env s changename describeParams fuel 0

/-- Case "rm" of `Change` (change.go:96-106). -/
def Change.rm (env : Env) (s : Stack) (changename : String) : Exec Unit := do
  let params : DeleteChangeSetInput := { ChangeSetName := changename, StackName := s.Stackname }
  emit (.deleteChangeSet params env.deleteChangeSet)
  returnIfErr env.deleteChangeSet
  emit (.log .info ("Change-Set: [" ++ changename ++ "] deleted"))

/-- Case "list" of `Change` (change.go:108-120). -/
def Change.list (env : Env) (s : Stack) : Exec Unit := do
  let params : ListChangeSetsInput := { StackName := s.Stackname }
  emit (.listChangeSets params env.listChangeSets)
  match env.listChangeSets with
  | .fail err => ret (some err)
  | .ok summaries =>
    ⟨summaries.map (fun i => .log .info (env.colorString "@" "magenta" ++ env.formatRFC850 i.CreationTime
      ++ " - Change-Set: [" ++ i.ChangeSetName ++ "] - Status: [" ++ i.ExecutionStatus ++ "]")), .next ()⟩

/-- Case "execute" of `Change` (change.go:122-144). -/
def Change.execute (env : Env) (s : Stack) (changename : String) : Exec Unit := do
  -- done := make(chan bool)
  let params : ExecuteChangeSetInput := { StackName := s.Stackname, ChangeSetName := changename }
  emit (.executeChangeSet params env.executeChangeSet)
  returnIfErr env.executeChangeSet
  let describeStacksInput : DescribeStacksInput := { StackName := s.Stackname }
  -- go s.tail("UPDATE", done)
  emit (.goTail "UPDATE")
  emit (.log .debug ("Calling [WaitUntilStackUpdateComplete] with parameters:" ++ " "
    ++ env.showDescribeStacksInput describeStacksInput ++ "\n"))
  emit (.waitUntilStackUpdateComplete describeStacksInput env.waitUntilStackUpdateComplete)
  returnIfErr env.waitUntilStackUpdateComplete
  -- done <- true
  emit .doneSend

/-- Case "desc" of `Change` (change.go:146-162). -/
def Change.desc (env : Env) (s : Stack) (changename : String) : Exec Unit := do
  let params : DescribeChangeSetInput := { ChangeSetName := changename, StackName := s.Stackname }
  emit (.describeChangeSet params (env.describeChangeSet 0))
  match env.describeChangeSet 0 with
  | .fail err => ret (some err)
  | .ok resp =>
    match env.marshalIndent resp with
    | .fail err => ret (some err)
    | .ok o => emit (.printf (o ++ "\n"))

/-- Go `func (s *Stack) Change(req, changename string) error` (change.go:15-166).
`fuel` bounds the iterations of the poll loop of case "create". -/
def Change (fuel : Nat) (env : Env) (s : Stack) (req changename : String) : Exec Empty := do
  if req = "create" then Change.create fuel env s changename
  else if req = "rm" then Change.rm env s changename
  else if req = "list" then Change.list env s
  else if req = "execute" then Change.execute env s changename
  else if req = "desc" then Change.desc env s changename
  else pure ()
  ret none

/-! ## `stacks/terminate.go` -/

/-- Go `func (s *Stack) terminate() error` (terminate.go:12-51). -/
def terminate (env : Env) (s : Stack) : Exec Empty := do
  emit (.log .debug ("terminate called for: [" ++ s.Name ++ "]"))
  emit (.stackExists env.stackExists)
  if !env.stackExists then do
    emit (.log .info (s.Name ++ ": does not exist..."))
    ret none
  else do
    -- done := make(chan bool)
    let params : DeleteStackInput := { StackName := s.Stackname }
    -- go tailWait(done, &tailinput), with tailinput.command = "DELETE"
    emit (.goTailWait "DELETE")
    emit (.log .debug ("calling [DeleteStack] with parameters: " ++ env.showDeleteStackInput params))
    emit (.deleteStack params env.deleteStack)
    match env.deleteStack with
    | some err => do
      -- done <- true
      emit .doneSend
      -- errors.New(fmt.Sprintln("Deleting failed: ", err))
      ret (some ⟨"Deleting failed: " ++ " " ++ err.msg ++ "\n"⟩)
    | none => do
      emit (.waitUntilStackDeleteComplete { StackName := s.Stackname } env.waitUntilStackDeleteComplete)
      match env.waitUntilStackDeleteComplete with
      | some err => ret (some err)
      | none => do
        -- done <- true
        emit .doneSend
        emit (.log .info ("deletion successful: [" ++ s.Stackname ++ "]"))
        ret none

/-! ## Reading traces -/

/-- Calls on the Control Plane Client (CloudFormation), `s.StackExists()` included. -/
def Event.isControlPlane : Event → Bool
  | .createChangeSet _ _ => true
  | .describeChangeSet _ _ => true
  | .deleteChangeSet _ _ => true
  | .listChangeSets _ _ => true
  | .executeChangeSet _ _ => true
  | .waitUntilStackUpdateComplete _ _ => true
  | .stackExists _ => true
  | .deleteStack _ _ => true
  | .waitUntilStackDeleteComplete _ _ => true
  | _ => false

/-- The error with which a Control Plane call failed, if the event is such a call and it failed. -/
def Event.failure : Event → Option Error
  | .createChangeSet _ err => err
  | .describeChangeSet _ resp => resp.err
  | .deleteChangeSet _ err => err
  | .listChangeSets _ resp => resp.err
  | .executeChangeSet _ err => err
  | .waitUntilStackUpdateComplete _ err => err
  | .deleteStack _ err => err
  | .waitUntilStackDeleteComplete _ err => err
  | _ => none

/-- Calls on the Object Store helpers (`bucket.Exists`, `bucket.Create`, `bucket.S3write`). -/
def Event.isObjectStore : Event → Bool
  | .bucketExists _ _ _ => true
  | .bucketCreate _ _ => true
  | .s3write _ _ _ _ => true
  | _ => false

/-- Launch of a tailer goroutine (`go s.tail(...)`, `go tailWait(...)`). -/
def Event.isTailLaunch : Event → Bool
  | .goTail _ => true
  | .goTailWait _ => true
  | _ => false

/-- The response of a `DescribeChangeSet` call. -/
def Event.describeResp : Event → Option (Resp DescribeChangeSetOutput)
  | .describeChangeSet _ resp => some resp
  | _ => none

/-- The describe responses observed along a trace, in order. -/
def describes (tr : List Event) : List (Resp DescribeChangeSetOutput) :=
  tr.filterMap Event.describeResp

/-- The statuses on which the poll loop stops (change.go:89). -/
def terminalStatus (st : String) : Prop := st = "CREATE_COMPLETE" ∨ st = "FAILED"

instance (st : String) : Decidable (terminalStatus st) := by
  unfold terminalStatus; infer_instance

/-- The error returned by `terminate` when the call recorded by `ev` failed with `e`:
a `DeleteStack` failure is re-packaged by `errors.New(fmt.Sprintln("Deleting failed: ", err))`. -/
def terminateError (ev : Event) (e : Error) : Error :=
  match ev with
  | .deleteStack _ _ => ⟨"Deleting failed: " ++ " " ++ e.msg ++ "\n"⟩
  | _ => e

/-- Reading of a trace against a result: at the first failed Control Plane call, no Control Plane
call follows and the result is the error `w ev e`. -/
def FailStop {α : Type} (w : Event → Error → Error) : List Event → Res α → Prop
  | [], _ => True
  | ev :: rest, res =>
    match ev.failure with
    | none => FailStop w rest res
    | some e => (∀ x ∈ rest, x.isControlPlane = false) ∧ res = .ret (some (w ev e))

/-! ## Normal forms used in the proofs -/

/-- Key under which the template is uploaded (change.go:52-54). -/
def templateKey (env : Env) (s : Stack) : String :=
  s.Stackname ++ "_" ++ (fmtD env.timeNow.Year ++ "-" ++ fmtD env.timeNow.Month ++ "-" ++ fmtD env.timeNow.Day
    ++ "_" ++ fmtD env.timeNow.Hour ++ fmtD env.timeNow.Minute) ++ ".template"

/-- Effects of change.go:41-51 (existence check, warning, create-if-absent), up to the upload. -/
def bucketEvents (env : Env) (s : Stack) : List Event :=
  .bucketExists s.Bucket env.bucketExists.1 env.bucketExists.2 ::
    ((match env.bucketExists.2 with
      | some err => [.log .warn ("Received Error when checking if [" ++ s.Bucket ++ "] exists: " ++ err.msg)]
      | none => []) ++
     (if env.bucketExists.1 = false then
        [.log .info ("Creating Bucket [" ++ s.Bucket ++ "]"), .bucketCreate s.Bucket env.bucketCreate]
      else []))

/-- Result of a function whose body ends in `return nil`, from the result of the statements before it. -/
def Res.fin : Res Unit → Res Empty
  | .next _ => .ret none
  | .ret e => .ret e
  | .spin => .spin

/-- The capabilities step of case "create" (change.go:63-69). -/
def withCapabilities (s : Stack) (params : CreateChangeSetInput) : CreateChangeSetInput :=
  if stringsContains s.Template "AWS::IAM" then
    { params with Capabilities := [CapabilityCapabilityIam, CapabilityCapabilityNamedIam] }
  else params

/-- Effects of case "create" up to the `CreateChangeSet` call when the template goes inline. -/
def inlineHead (s : Stack) : List Event :=
  [.deployTimeParser none, .log .debug ("Updated Template:\n" ++ s.Template)]

/-- Effects of case "create" up to the upload when a bucket is configured. -/
def bucketHead (env : Env) (s : Stack) : List Event :=
  .deployTimeParser none :: .log .debug ("Updated Template:\n" ++ s.Template) :: bucketEvents env s

/-- Effects of the poll loop as started by case "create" after a successful `CreateChangeSet`. -/
def createLoop (fuel : Nat) (env : Env) (s : Stack) (name : String) : Exec Unit :=
  pollLoop env s name { StackName := s.Stackname, ChangeSetName := name } fuel 0

/-- Effects and result of case "create" from the `CreateChangeSet` call on. -/
def createTail (fuel : Nat) (env : Env) (s : Stack) (name : String) (p : CreateChangeSetInput) : Exec Unit :=
  match env.createChangeSet with
  | some e => ⟨[.createChangeSet p (some e)], .ret (some e)⟩
  | none => ⟨.createChangeSet p none :: (createLoop fuel env s name).trace, (createLoop fuel env s name).res⟩

/-- Effects of the poll loop over a run of describe responses `rs`, none of which ends it: for each
response the describe call, the `Log.Info` status line and the one-second sleep (change.go:82-93). -/
def pollRounds (env : Env) (s : Stack) (name : String) : List DescribeChangeSetOutput → List Event
  | [] => []
  | r :: rs =>
    .describeChangeSet { StackName := s.Stackname, ChangeSetName := name } (.ok r) ::
    .log .info ("Creating Change-Set: [" ++ name ++ "] - " ++ env.colorMap r.Status ++ " - " ++ s.Stackname) ::
    .sleep 1 :: pollRounds env s name rs

/-! ## Concrete inputs -/

/-- Stack "web" with an S3-only template and no bucket. -/
def web : Stack := { Name := "web", Stackname := "web", Template := "AWS::S3::Bucket", Bucket := "" }

/-- Stack "web" with an IAM role in the template and bucket "my-bucket". -/
def webIam : Stack :=
  { Name := "web", Stackname := "web", Template := "Type: AWS::IAM::Role", Bucket := "my-bucket" }

/-- An error value. -/
def boom : Error := ⟨"boom"⟩

/-- Every collaborator succeeds; the stack exists; the bucket is absent; the change-set is pending
on the first describe call and FAILED on the second. -/
def envOk : Env where
  deployTimeParser := fun s => .ok s
  bucketExists := (false, none)
  bucketCreate := none
  timeNow := ⟨2017, 3, 9, 14, 5⟩
  s3write := .ok "https://s3.amazonaws.com/my-bucket/web.template"
  createChangeSet := none
  describeChangeSet := fun i => if i = 0 then .ok { Status := "CREATE_PENDING" } else .ok { Status := "FAILED" }
  deleteChangeSet := none
  listChangeSets := .ok []
  executeChangeSet := none
  waitUntilStackUpdateComplete := none
  stackExists := true
  deleteStack := none
  waitUntilStackDeleteComplete := none
  colorMap := fun st => st
  colorString := fun a _ => a
  formatRFC850 := fun t => fmtD t.Year
  showDescribeStacksInput := fun p => p.StackName
  showDeleteStackInput := fun p => p.StackName
  marshalIndent := fun r => .ok r.Status

/-- As `envOk`, but the stack does not exist remotely. -/
def envAbsent : Env := { envOk with stackExists := false }

/-- As `envOk`, but `WaitUntilStackDeleteComplete` fails. -/
def envDeleteWaitFails : Env := { envOk with waitUntilStackDeleteComplete := some boom }

/-- As `envOk`, but `WaitUntilStackUpdateComplete` fails. -/
def envUpdateWaitFails : Env := { envOk with waitUntilStackUpdateComplete := some boom }

/-- As `envOk`, but `ExecuteChangeSet` fails. -/
def envExecuteFails : Env := { envOk with executeChangeSet := some boom }

/-- As `envOk`, but `DeleteChangeSet` fails. -/
def envRmFails : Env := { envOk with deleteChangeSet := some boom }

/-- As `envOk`, but `DeleteStack` fails. -/
def envDeleteFails : Env := { envOk with deleteStack := some boom }

/-- As `envOk`, but the first describe call reports the status "CREATE_IN_PROGRESS" and the second
"CREATE_COMPLETE". -/
def envInProgressThenComplete : Env :=
  { envOk with
    describeChangeSet := fun i =>
      if i = 0 then .ok { Status := "CREATE_IN_PROGRESS" } else .ok { Status := "CREATE_COMPLETE" } }

/-- As `envOk`, but every describe call reports the status "CREATE_IN_PROGRESS". -/
def envInProgressForever : Env :=
  { envOk with describeChangeSet := fun _ => .ok { Status := "CREATE_IN_PROGRESS" } }

/-! ## Execution lemmas -/

@[simp] theorem bind_eq {α β : Type} (x : Exec α) (f : α → Exec β) : x >>= f = Exec.bind x f := rfl

@[simp] theorem pure_eq {α : Type} (a : α) : (pure a : Exec α) = ⟨[], .next a⟩ := rfl

theorem pollLoop_zero (env : Env) (s : Stack) (name : String) (dp : DescribeChangeSetInput) (i : Nat) :
    pollLoop env s name dp 0 i = ⟨[], .spin⟩ := rfl

theorem pollLoop_fail (env : Env) (s : Stack) (name : String) (dp : DescribeChangeSetInput) (fuel i : Nat)
    (e : Error) (h : env.describeChangeSet i = .fail e) :
    pollLoop env s name dp (fuel + 1) i = ⟨[.describeChangeSet dp (.fail e)], .ret (some e)⟩ := by
  simp [pollLoop, Exec.bind, emit, ret, h]

theorem pollLoop_break (env : Env) (s : Stack) (name : String) (dp : DescribeChangeSetInput) (fuel i : Nat)
    (r : DescribeChangeSetOutput) (h : env.describeChangeSet i = .ok r) (ht : terminalStatus r.Status) :
    pollLoop env s name dp (fuel + 1) i =
      ⟨[.describeChangeSet dp (.ok r),
        .log .info ("Creating Change-Set: [" ++ name ++ "] - " ++ env.colorMap r.Status ++ " - " ++ s.Stackname)],
        .next ()⟩ := by
  unfold terminalStatus at ht
  simp [pollLoop, Exec.bind, emit, ret, h, ht]

theorem pollLoop_again (env : Env) (s : Stack) (name : String) (dp : DescribeChangeSetInput) (fuel i : Nat)
    (r : DescribeChangeSetOutput) (h : env.describeChangeSet i = .ok r) (ht : ¬ terminalStatus r.Status) :
    pollLoop env s name dp (fuel + 1) i =
      ⟨.describeChangeSet dp (.ok r) ::
        .log .info ("Creating Change-Set: [" ++ name ++ "] - " ++ env.colorMap r.Status ++ " - " ++ s.Stackname) ::
        .sleep 1 :: (pollLoop env s name dp fuel (i + 1)).trace,
        (pollLoop env s name dp fuel (i + 1)).res⟩ := by
  unfold terminalStatus at ht
  rw [pollLoop]
  simp [Exec.bind, emit, ret, h, ht]

theorem pollLoop_events (env : Env) (s : Stack) (name : String) (dp : DescribeChangeSetInput) (fuel : Nat) :
    ∀ i, ∀ ev ∈ (pollLoop env s name dp fuel i).trace,
      (∃ r, ev = .describeChangeSet dp r) ∨ (∃ m, ev = .log .info m) ∨ ev = .sleep 1 := by
  induction fuel with
  | zero => intro i ev h; simp [pollLoop_zero] at h
  | succ fuel ih =>
    intro i ev h
    rcases hr : env.describeChangeSet i with r | e
    · by_cases ht : terminalStatus r.Status
      · rw [pollLoop_break env s name dp fuel i r hr ht] at h
        simp at h
        rcases h with h | h
        · exact Or.inl ⟨_, h⟩
        · exact Or.inr (Or.inl ⟨_, h⟩)
      · rw [pollLoop_again env s name dp fuel i r hr ht] at h
        simp at h
        rcases h with h | h | h | h
        · exact Or.inl ⟨_, h⟩
        · exact Or.inr (Or.inl ⟨_, h⟩)
        · exact Or.inr (Or.inr h)
        · exact ih (i + 1) ev h
    · rw [pollLoop_fail env s name dp fuel i e hr] at h
      simp at h
      exact Or.inl ⟨_, h⟩

theorem pollLoop_stop (env : Env) (s : Stack) (name : String) (dp : DescribeChangeSetInput) (n : Nat) :
    ∀ fuel i, n < fuel →
      (∀ j, j < n → ∃ r, env.describeChangeSet (i + j) = .ok r ∧ ¬ terminalStatus r.Status) →
      (∃ r, env.describeChangeSet (i + n) = .ok r ∧ terminalStatus r.Status) →
      (pollLoop env s name dp fuel i).res = .next () ∧
      describes (pollLoop env s name dp fuel i).trace
        = (List.range (n + 1)).map (fun j => env.describeChangeSet (i + j)) := by
  induction n with
  | zero =>
    intro fuel i hf _ hlast
    obtain ⟨r, hr, ht⟩ := hlast
    obtain ⟨f, rfl⟩ : ∃ f, fuel = f + 1 := ⟨fuel - 1, by omega⟩
    have hr : env.describeChangeSet i = .ok r := by simpa using hr
    rw [pollLoop_break env s name dp f i r hr ht]
    simp [describes, Event.describeResp, hr, List.range_succ]
  | succ n ih =>
    intro fuel i hf hpre hlast
    obtain ⟨f, rfl⟩ : ∃ f, fuel = f + 1 := ⟨fuel - 1, by omega⟩
    obtain ⟨r, hr, ht⟩ := hpre 0 (by omega)
    have hr : env.describeChangeSet i = .ok r := by simpa using hr
    rw [pollLoop_again env s name dp f i r hr ht]
    have hpre2 : ∀ j, j < n → ∃ r, env.describeChangeSet (i + 1 + j) = .ok r ∧ ¬ terminalStatus r.Status := by
      intro j hj
      have := hpre (j + 1) (by omega)
      rwa [show i + (j + 1) = i + 1 + j by omega] at this
    have hlast2 : ∃ r, env.describeChangeSet (i + 1 + n) = .ok r ∧ terminalStatus r.Status := by
      rwa [show i + (n + 1) = i + 1 + n by omega] at hlast
    obtain ⟨h1, h2⟩ := ih f (i + 1) (by omega) hpre2 hlast2
    refine ⟨h1, ?_⟩
    simp only [describes] at h2 ⊢
    rw [List.range_succ_eq_map]
    simp [Event.describeResp, h2, List.map_map, Function.comp_def, hr]
    intro a _
    congr 1
    omega

theorem pollLoop_spin (env : Env) (s : Stack) (name : String) (dp : DescribeChangeSetInput) (fuel : Nat) :
    ∀ i, (∀ j, j < fuel → ∃ r, env.describeChangeSet (i + j) = .ok r ∧ ¬ terminalStatus r.Status) →
      (pollLoop env s name dp fuel i).res = .spin ∧
      describes (pollLoop env s name dp fuel i).trace
        = (List.range fuel).map (fun j => env.describeChangeSet (i + j)) := by
  induction fuel with
  | zero => intro i _; simp [pollLoop_zero, describes]
  | succ f ih =>
    intro i hpre
    obtain ⟨r, hr, ht⟩ := hpre 0 (by omega)
    have hr : env.describeChangeSet i = .ok r := by simpa using hr
    rw [pollLoop_again env s name dp f i r hr ht]
    have hpre2 : ∀ j, j < f → ∃ r, env.describeChangeSet (i + 1 + j) = .ok r ∧ ¬ terminalStatus r.Status := by
      intro j hj
      have := hpre (j + 1) (by omega)
      rwa [show i + (j + 1) = i + 1 + j by omega] at this
    obtain ⟨h1, h2⟩ := ih (i + 1) hpre2
    refine ⟨h1, ?_⟩
    simp only [describes] at h2 ⊢
    rw [List.range_succ_eq_map]
    simp [Event.describeResp, h2, List.map_map, Function.comp_def, hr]
    intro a _
    congr 1
    omega

theorem pollLoop_seen (env : Env) (s : Stack) (name : String) (dp : DescribeChangeSetInput) (fuel : Nat) :
    ∀ i dq r, Event.describeChangeSet dq (.ok r) ∈ (pollLoop env s name dp fuel i).trace →
      terminalStatus r.Status →
      (pollLoop env s name dp fuel i).res = .next () ∧
      Event.log .info ("Creating Change-Set: [" ++ name ++ "] - " ++ env.colorMap r.Status ++ " - " ++ s.Stackname)
        ∈ (pollLoop env s name dp fuel i).trace := by
  induction fuel with
  | zero => intro i dq r h; simp [pollLoop_zero] at h
  | succ f ih =>
    intro i dq r h ht
    rcases hr : env.describeChangeSet i with r0 | e
    · by_cases ht0 : terminalStatus r0.Status
      · rw [pollLoop_break env s name dp f i r0 hr ht0] at h ⊢
        simp at h
        obtain ⟨-, rfl⟩ := h
        simp
      · rw [pollLoop_again env s name dp f i r0 hr ht0] at h ⊢
        simp at h
        rcases h with h | h
        · obtain ⟨-, rfl⟩ := h
          exact absurd ht ht0
        · obtain ⟨h1, h2⟩ := ih (i + 1) dq r h ht
          exact ⟨h1, by simp [h2]⟩
    · rw [pollLoop_fail env s name dp f i e hr] at h
      simp at h

theorem templateSource_inline (env : Env) (s : Stack) (params : CreateChangeSetInput) (h : s.Bucket = "") :
    Change.templateSource env s params = ⟨[], .next { params with TemplateBody := some s.Template }⟩ := by
  simp [Change.templateSource, h]

theorem templateSource_createFails (env : Env) (s : Stack) (params : CreateChangeSetInput) (e : Error)
    (h : s.Bucket ≠ "") (hx : env.bucketExists.1 = false) (hc : env.bucketCreate = some e) :
    Change.templateSource env s params = ⟨bucketEvents env s, .ret (some e)⟩ := by
  unfold Change.templateSource bucketEvents
  cases hw : env.bucketExists.2 <;> simp [Exec.bind, emit, ret, returnIfErr, h, hx, hc, hw]

theorem templateSource_upload (env : Env) (s : Stack) (params : CreateChangeSetInput)
    (h : s.Bucket ≠ "") (hc : env.bucketExists.1 = false → env.bucketCreate = none) :
    Change.templateSource env s params =
      ⟨bucketEvents env s ++ [.s3write s.Bucket (templateKey env s) s.Template env.s3write],
        match env.s3write with
        | .fail e => .ret (some e)
        | .ok url => .next { params with TemplateURL := some url }⟩ := by
  unfold Change.templateSource bucketEvents templateKey
  cases hx : env.bucketExists.1 <;> cases hw : env.bucketExists.2 <;> cases hs : env.s3write <;>
    simp [Exec.bind, emit, ret, returnIfErr, h, hx, hw, hs, hc]

theorem Change_create (fuel : Nat) (env : Env) (s : Stack) (name : String) :
    Change fuel env s "create" name =
      ⟨(Change.create fuel env s name).trace, (Change.create fuel env s name).res.fin⟩ := by
  simp only [Change]
  simp [Exec.bind, ret]
  cases h : (Change.create fuel env s name).res <;> simp [Res.fin]

theorem create_parseFails (fuel : Nat) (env : Env) (s : Stack) (name : String) (e : Error)
    (h : env.deployTimeParser s = .fail e) :
    Change.create fuel env s name = ⟨[.deployTimeParser (some e)], .ret (some e)⟩ := by
  simp [Change.create, Exec.bind, emit, ret, h, Resp.err]

theorem create_inline (fuel : Nat) (env : Env) (s t : Stack) (name : String)
    (h : env.deployTimeParser s = .ok t) (hb : t.Bucket = "") :
    Change.create fuel env s name =
      ⟨inlineHead t ++
        (createTail fuel env t name (withCapabilities t
          { StackName := t.Stackname, ChangeSetName := name, TemplateBody := some t.Template })).trace,
        (createTail fuel env t name (withCapabilities t
          { StackName := t.Stackname, ChangeSetName := name, TemplateBody := some t.Template })).res⟩ := by
  unfold Change.create
  simp only [h]
  rw [templateSource_inline env t _ hb]
  unfold createTail createLoop inlineHead withCapabilities
  cases hc : env.createChangeSet <;> by_cases hi : stringsContains t.Template "AWS::IAM" = true <;>
    simp [Exec.bind, emit, ret, returnIfErr, Resp.err, hi]

theorem create_bucketFails (fuel : Nat) (env : Env) (s t : Stack) (name : String) (e : Error)
    (h : env.deployTimeParser s = .ok t) (hb : t.Bucket ≠ "")
    (hx : env.bucketExists.1 = false) (hc : env.bucketCreate = some e) :
    Change.create fuel env s name = ⟨bucketHead env t, .ret (some e)⟩ := by
  unfold Change.create
  simp only [h]
  rw [templateSource_createFails env t _ e hb hx hc]
  simp [Exec.bind, emit, ret, Resp.err, bucketHead]

theorem create_uploadFails (fuel : Nat) (env : Env) (s t : Stack) (name : String) (e : Error)
    (h : env.deployTimeParser s = .ok t) (hb : t.Bucket ≠ "")
    (hc : env.bucketExists.1 = false → env.bucketCreate = none) (hs : env.s3write = .fail e) :
    Change.create fuel env s name =
      ⟨bucketHead env t ++ [.s3write t.Bucket (templateKey env t) t.Template (.fail e)], .ret (some e)⟩ := by
  unfold Change.create
  simp only [h]
  rw [templateSource_upload env t _ hb hc]
  simp [Exec.bind, emit, ret, Resp.err, bucketHead, hs]

theorem create_upload (fuel : Nat) (env : Env) (s t : Stack) (name url : String)
    (h : env.deployTimeParser s = .ok t) (hb : t.Bucket ≠ "")
    (hc : env.bucketExists.1 = false → env.bucketCreate = none) (hs : env.s3write = .ok url) :
    Change.create fuel env s name =
      ⟨bucketHead env t ++ .s3write t.Bucket (templateKey env t) t.Template (.ok url) ::
        (createTail fuel env t name (withCapabilities t
          { StackName := t.Stackname, ChangeSetName := name, TemplateURL := some url })).trace,
        (createTail fuel env t name (withCapabilities t
          { StackName := t.Stackname, ChangeSetName := name, TemplateURL := some url })).res⟩ := by
  unfold Change.create
  simp only [h]
  rw [templateSource_upload env t _ hb hc]
  unfold createTail createLoop bucketHead withCapabilities
  cases hcc : env.createChangeSet <;> by_cases hi : stringsContains t.Template "AWS::IAM" = true <;>
    simp [Exec.bind, emit, ret, returnIfErr, Resp.err, hi, hs]

theorem failure_isControlPlane (ev : Event) (e : Error) (h : ev.failure = some e) :
    ev.isControlPlane = true := by
  cases ev <;> simp [Event.failure] at h <;> rfl

theorem failStop_quiet {α : Type} (w : Event → Error → Error) (res : Res α) :
    ∀ tr : List Event, (∀ ev ∈ tr, ev.failure = none) → FailStop w tr res := by
  intro tr
  induction tr with
  | nil => intro _; simp [FailStop]
  | cons a tr ih =>
    intro h
    have ha : a.failure = none := h a (by simp)
    simp only [FailStop, ha]
    exact ih (fun ev hev => h ev (by simp [hev]))

theorem failStop_append {α : Type} (w : Event → Error → Error) (res : Res α) (B : List Event) :
    ∀ A : List Event, (∀ ev ∈ A, ev.failure = none) → FailStop w B res → FailStop w (A ++ B) res := by
  intro A
  induction A with
  | nil => intro _ h; simpa using h
  | cons a A ih =>
    intro h hB
    have ha : a.failure = none := h a (by simp)
    simp only [List.cons_append, FailStop, ha]
    exact ih (fun ev hev => h ev (by simp [hev])) hB

theorem failStop_split {α : Type} (w : Event → Error → Error) (res : Res α) (ev : Event) (post : List Event)
    (e : Error) (hfail : ev.failure = some e) :
    ∀ (pre tr : List Event), FailStop w tr res → tr = pre ++ ev :: post →
      (∀ x ∈ post, x.isControlPlane = false) ∧ res = .ret (some (w ev e)) := by
  intro pre
  induction pre with
  | nil =>
    intro tr h htr
    subst htr
    simpa [FailStop, hfail] using h
  | cons a pre ih =>
    intro tr h htr
    subst htr
    cases ha : a.failure with
    | none =>
      simp only [List.cons_append, FailStop, ha] at h
      exact ih _ h rfl
    | some e0 =>
      simp only [List.cons_append, FailStop, ha] at h
      have := h.1 ev (by simp)
      rw [failure_isControlPlane ev e hfail] at this
      exact absurd this (by simp)

theorem pollLoop_failStop (env : Env) (s : Stack) (name : String) (dp : DescribeChangeSetInput) (fuel : Nat) :
    ∀ i, FailStop (fun _ e => e) (pollLoop env s name dp fuel i).trace (pollLoop env s name dp fuel i).res.fin := by
  induction fuel with
  | zero => intro i; simp [pollLoop_zero, FailStop]
  | succ f ih =>
    intro i
    rcases hr : env.describeChangeSet i with r | e
    · by_cases ht : terminalStatus r.Status
      · rw [pollLoop_break env s name dp f i r hr ht]
        simp [FailStop, Event.failure, Resp.err]
      · rw [pollLoop_again env s name dp f i r hr ht]
        simp only [FailStop, Event.failure, Resp.err]
        exact ih (i + 1)
    · rw [pollLoop_fail env s name dp f i e hr]
      simp [FailStop, Event.failure, Resp.err, Res.fin]


theorem bucketHead_quiet (env : Env) (t : Stack) :
    ∀ ev ∈ bucketHead env t, ev.isControlPlane = false := by
  unfold bucketHead bucketEvents
  cases env.bucketExists.2 <;> cases env.bucketExists.1 <;> simp [Event.isControlPlane]

theorem inlineHead_quiet (t : Stack) :
    ∀ ev ∈ inlineHead t, ev.isControlPlane = false ∧ ev.isObjectStore = false := by
  simp [inlineHead, Event.isControlPlane, Event.isObjectStore]

theorem create_cases (fuel : Nat) (env : Env) (s : Stack) (name : String) :
    (∃ pre e, Change.create fuel env s name = ⟨pre, .ret (some e)⟩ ∧
        ∀ ev ∈ pre, ev.isControlPlane = false) ∨
    (∃ t, env.deployTimeParser s = .ok t ∧ t.Bucket = "" ∧
        Change.create fuel env s name =
          ⟨inlineHead t ++
            (createTail fuel env t name (withCapabilities t
              { StackName := t.Stackname, ChangeSetName := name, TemplateBody := some t.Template })).trace,
            (createTail fuel env t name (withCapabilities t
              { StackName := t.Stackname, ChangeSetName := name, TemplateBody := some t.Template })).res⟩) ∨
    (∃ t url, env.deployTimeParser s = .ok t ∧ t.Bucket ≠ "" ∧ env.s3write = .ok url ∧
        (env.bucketExists.1 = false → env.bucketCreate = none) ∧
        Change.create fuel env s name =
          ⟨bucketHead env t ++ .s3write t.Bucket (templateKey env t) t.Template (.ok url) ::
            (createTail fuel env t name (withCapabilities t
              { StackName := t.Stackname, ChangeSetName := name, TemplateURL := some url })).trace,
            (createTail fuel env t name (withCapabilities t
              { StackName := t.Stackname, ChangeSetName := name, TemplateURL := some url })).res⟩) := by
  rcases hp : env.deployTimeParser s with t | e
  · by_cases hb : t.Bucket = ""
    · exact Or.inr (Or.inl ⟨t, rfl, hb, create_inline fuel env s t name hp hb⟩)
    · by_cases hc : env.bucketExists.1 = false → env.bucketCreate = none
      · rcases hs : env.s3write with url | e
        · exact Or.inr (Or.inr ⟨t, url, rfl, hb, rfl, hc, create_upload fuel env s t name url hp hb hc hs⟩)
        · refine Or.inl ⟨_, e, create_uploadFails fuel env s t name e hp hb hc hs, ?_⟩
          intro ev hev
          rcases List.mem_append.1 hev with h | h
          · exact bucketHead_quiet env t ev h
          · simp at h
            subst h
            rfl
      · have hx : env.bucketExists.1 = false := by
          by_contra hx; exact hc (fun h => absurd h hx)
        obtain ⟨e, he⟩ : ∃ e, env.bucketCreate = some e := by
          cases hcc : env.bucketCreate with
          | none => exact absurd (fun _ => hcc) hc
          | some e => exact ⟨e, rfl⟩
        refine Or.inl ⟨_, e, create_bucketFails fuel env s t name e hp hb hx he, ?_⟩
        exact bucketHead_quiet env t
  · refine Or.inl ⟨_, e, create_parseFails fuel env s name e hp, ?_⟩
    intro ev hev
    simp at hev
    subst hev
    rfl

theorem createTail_trace (fuel : Nat) (env : Env) (t : Stack) (name : String) (p : CreateChangeSetInput) :
    ∃ rest, (createTail fuel env t name p).trace = .createChangeSet p env.createChangeSet :: rest ∧
      (∀ ev ∈ rest, (∃ r, ev = .describeChangeSet { StackName := t.Stackname, ChangeSetName := name } r) ∨
        (∃ m, ev = .log .info m) ∨ ev = .sleep 1) ∧
      (env.createChangeSet = none → rest = (createLoop fuel env t name).trace ∧
        (createTail fuel env t name p).res = (createLoop fuel env t name).res) ∧
      (∀ e, env.createChangeSet = some e → rest = [] ∧ (createTail fuel env t name p).res = .ret (some e)) := by
  unfold createTail
  cases hc : env.createChangeSet with
  | none =>
    refine ⟨_, rfl, ?_, fun _ => ⟨rfl, rfl⟩, fun e he => by simp at he⟩
    exact pollLoop_events env t name _ fuel 0
  | some e =>
    refine ⟨[], rfl, by simp, fun h => by simp at h, fun e0 he => ?_⟩
    simp at he
    subst he
    exact ⟨rfl, rfl⟩

theorem loopEvent_kinds (dp : DescribeChangeSetInput) (ev : Event)
    (h : (∃ r, ev = .describeChangeSet dp r) ∨ (∃ m, ev = .log .info m) ∨ ev = .sleep 1) :
    ev.isObjectStore = false ∧ (∀ q r, ev ≠ .createChangeSet q r) := by
  rcases h with ⟨r, rfl⟩ | ⟨m, rfl⟩ | rfl <;> simp [Event.isObjectStore]

/-- The two shapes of a run of case "create": it returns an error before any Control Plane call, or
it reaches the `CreateChangeSet` call with request `p`. -/
theorem create_shape (fuel : Nat) (env : Env) (s : Stack) (name : String) :
    (∃ pre e, Change fuel env s "create" name = ⟨pre, .ret (some e)⟩ ∧
        ∀ ev ∈ pre, ev.isControlPlane = false) ∨
    (∃ t pre rest p, env.deployTimeParser s = .ok t ∧
      (Change fuel env s "create" name).trace = pre ++ .createChangeSet p env.createChangeSet :: rest ∧
      (∀ ev ∈ pre, ev.isControlPlane = false) ∧
      (∀ ev ∈ rest, (∃ r, ev = .describeChangeSet { StackName := t.Stackname, ChangeSetName := name } r) ∨
        (∃ m, ev = .log .info m) ∨ ev = .sleep 1) ∧
      (env.createChangeSet = none → rest = (createLoop fuel env t name).trace ∧
        (Change fuel env s "create" name).res = (createLoop fuel env t name).res.fin) ∧
      (∀ e, env.createChangeSet = some e → rest = [] ∧
        (Change fuel env s "create" name).res = .ret (some e)) ∧
      p.StackName = t.Stackname ∧ p.ChangeSetName = name ∧
      p.Capabilities = (if stringsContains t.Template "AWS::IAM" = true then
        [CapabilityCapabilityIam, CapabilityCapabilityNamedIam] else []) ∧
      ((t.Bucket = "" ∧ pre = inlineHead t ∧ p.TemplateBody = some t.Template ∧ p.TemplateURL = none) ∨
       (t.Bucket ≠ "" ∧ ∃ url, env.s3write = .ok url ∧
          (env.bucketExists.1 = false → env.bucketCreate = none) ∧
          pre = bucketHead env t ++ [.s3write t.Bucket (templateKey env t) t.Template (.ok url)] ∧
          p.TemplateBody = none ∧ p.TemplateURL = some url))) := by
  rw [Change_create]
  simp only
  rcases create_cases fuel env s name with ⟨pre, e, hrun, hq⟩ | ⟨t, hp, hb, hrun⟩ | ⟨t, url, hp, hb, hs, hc, hrun⟩
  · left
    exact ⟨pre, e, by rw [hrun]; rfl, hq⟩
  · right
    rw [hrun]
    simp only
    obtain ⟨rest, htr, hk, hnone, hsome⟩ := createTail_trace fuel env t name (withCapabilities t
      { StackName := t.Stackname, ChangeSetName := name, TemplateBody := some t.Template })
    rw [htr]
    refine ⟨t, inlineHead t, rest, _, hp, rfl, fun ev hev => (inlineHead_quiet t ev hev).1, hk,
      ?_, ?_, ?_, ?_, ?_, ?_⟩
    · intro hn
      exact ⟨(hnone hn).1, by rw [(hnone hn).2]⟩
    · intro e he
      exact ⟨(hsome e he).1, by rw [(hsome e he).2]; rfl⟩
    · unfold withCapabilities; split <;> rfl
    · unfold withCapabilities; split <;> rfl
    · unfold withCapabilities; split <;> simp_all
    · left
      refine ⟨hb, rfl, ?_, ?_⟩ <;> (unfold withCapabilities; split <;> rfl)
  · right
    rw [hrun]
    simp only
    obtain ⟨rest, htr, hk, hnone, hsome⟩ := createTail_trace fuel env t name (withCapabilities t
      { StackName := t.Stackname, ChangeSetName := name, TemplateURL := some url })
    rw [htr]
    refine ⟨t, bucketHead env t ++ [.s3write t.Bucket (templateKey env t) t.Template (.ok url)], rest,
      withCapabilities t { StackName := t.Stackname, ChangeSetName := name, TemplateURL := some url }, hp,
      by simp, ?_, hk, ?_, ?_, ?_, ?_, ?_, ?_⟩
    · intro ev hev
      rcases List.mem_append.1 hev with h1 | h1
      · exact bucketHead_quiet env t ev h1
      · simp at h1
        subst h1
        rfl
    · intro hn
      exact ⟨(hnone hn).1, by rw [(hnone hn).2]⟩
    · intro e he
      exact ⟨(hsome e he).1, by rw [(hsome e he).2]; rfl⟩
    · unfold withCapabilities; split <;> rfl
    · unfold withCapabilities; split <;> rfl
    · unfold withCapabilities; split <;> simp_all
    · right
      refine ⟨hb, url, hs, hc, rfl, ?_, ?_⟩ <;> (unfold withCapabilities; split <;> rfl)

/-- A `CreateChangeSet` event of a run of case "create" is the one of `create_shape`. -/
theorem create_call_unique (pre rest : List Event) (p q : CreateChangeSetInput) (r r0 : Option Error)
    (dp : DescribeChangeSetInput)
    (hq : ∀ ev ∈ pre, ev.isControlPlane = false)
    (hk : ∀ ev ∈ rest, (∃ r, ev = .describeChangeSet dp r) ∨ (∃ m, ev = .log .info m) ∨ ev = .sleep 1)
    (h : Event.createChangeSet q r ∈ pre ++ .createChangeSet p r0 :: rest) : q = p ∧ r = r0 := by
  rcases List.mem_append.1 h with h1 | h1
  · have := hq _ h1
    simp [Event.isControlPlane] at this
  · rcases List.mem_cons.1 h1 with h2 | h2
    · simpa using h2
    · exact absurd rfl ((loopEvent_kinds _ _ (hk _ h2)).2 q r)

/-- A `DescribeChangeSet` event of a run of case "create" belongs to the poll loop, entered after a
successful `CreateChangeSet`. -/
theorem create_describe_in_loop (pre rest : List Event) (p : CreateChangeSetInput) (r0 : Option Error)
    (dq : DescribeChangeSetInput) (resp : Resp DescribeChangeSetOutput)
    (hq : ∀ ev ∈ pre, ev.isControlPlane = false)
    (h : Event.describeChangeSet dq resp ∈ pre ++ .createChangeSet p r0 :: rest) :
    Event.describeChangeSet dq resp ∈ rest := by
  rcases List.mem_append.1 h with h1 | h1
  · have := hq _ h1
    simp [Event.isControlPlane] at this
  · rcases List.mem_cons.1 h1 with h2 | h2
    · simp at h2
    · exact h2

/-! ## `terminate` -/

theorem terminate_eval (env : Env) (s : Stack) :
    terminate env s =
      if env.stackExists = false then
        ⟨[.log .debug ("terminate called for: [" ++ s.Name ++ "]"), .stackExists false,
          .log .info (s.Name ++ ": does not exist...")], .ret none⟩
      else
        match env.deleteStack with
        | some err =>
          ⟨[.log .debug ("terminate called for: [" ++ s.Name ++ "]"), .stackExists true, .goTailWait "DELETE",
            .log .debug ("calling [DeleteStack] with parameters: " ++ env.showDeleteStackInput ⟨s.Stackname⟩),
            .deleteStack ⟨s.Stackname⟩ (some err), .doneSend],
            .ret (some ⟨"Deleting failed: " ++ " " ++ err.msg ++ "\n"⟩)⟩
        | none =>
          match env.waitUntilStackDeleteComplete with
          | some err =>
            ⟨[.log .debug ("terminate called for: [" ++ s.Name ++ "]"), .stackExists true, .goTailWait "DELETE",
              .log .debug ("calling [DeleteStack] with parameters: " ++ env.showDeleteStackInput ⟨s.Stackname⟩),
              .deleteStack ⟨s.Stackname⟩ none, .waitUntilStackDeleteComplete ⟨s.Stackname⟩ (some err)],
              .ret (some err)⟩
          | none =>
            ⟨[.log .debug ("terminate called for: [" ++ s.Name ++ "]"), .stackExists true, .goTailWait "DELETE",
              .log .debug ("calling [DeleteStack] with parameters: " ++ env.showDeleteStackInput ⟨s.Stackname⟩),
              .deleteStack ⟨s.Stackname⟩ none, .waitUntilStackDeleteComplete ⟨s.Stackname⟩ none, .doneSend,
              .log .info ("deletion successful: [" ++ s.Stackname ++ "]")], .ret none⟩ := by
  unfold terminate
  cases hx : env.stackExists <;> cases hd : env.deleteStack <;>
    cases hw : env.waitUntilStackDeleteComplete <;> simp [Exec.bind, emit, ret]

theorem terminate_failStop (env : Env) (s : Stack) :
    FailStop terminateError (terminate env s).trace (terminate env s).res := by
  rw [terminate_eval]
  cases hx : env.stackExists <;> cases hd : env.deleteStack <;>
    cases hw : env.waitUntilStackDeleteComplete <;>
    simp [FailStop, Event.failure, Event.isControlPlane, terminateError]

/-! ## Cases "rm", "list", "execute", "desc" -/

theorem Change_rm (fuel : Nat) (env : Env) (s : Stack) (name : String) :
    Change fuel env s "rm" name =
      match env.deleteChangeSet with
      | some e => ⟨[.deleteChangeSet ⟨name, s.Stackname⟩ (some e)], .ret (some e)⟩
      | none => ⟨[.deleteChangeSet ⟨name, s.Stackname⟩ none,
          .log .info ("Change-Set: [" ++ name ++ "] deleted")], .ret none⟩ := by
  simp only [Change]
  cases h : env.deleteChangeSet <;> simp [Change.rm, Exec.bind, emit, ret, returnIfErr, h]

theorem Change_list (fuel : Nat) (env : Env) (s : Stack) (name : String) :
    Change fuel env s "list" name =
      match env.listChangeSets with
      | .fail e => ⟨[.listChangeSets ⟨s.Stackname⟩ (.fail e)], .ret (some e)⟩
      | .ok summaries => ⟨.listChangeSets ⟨s.Stackname⟩ (.ok summaries) ::
          summaries.map (fun i => .log .info (env.colorString "@" "magenta" ++ env.formatRFC850 i.CreationTime
            ++ " - Change-Set: [" ++ i.ChangeSetName ++ "] - Status: [" ++ i.ExecutionStatus ++ "]")),
          .ret none⟩ := by
  simp only [Change]
  cases h : env.listChangeSets <;> simp [Change.list, Exec.bind, emit, ret, h]

theorem Change_execute (fuel : Nat) (env : Env) (s : Stack) (name : String) :
    Change fuel env s "execute" name =
      match env.executeChangeSet with
      | some e => ⟨[.executeChangeSet ⟨s.Stackname, name⟩ (some e)], .ret (some e)⟩
      | none =>
        match env.waitUntilStackUpdateComplete with
        | some e =>
          ⟨[.executeChangeSet ⟨s.Stackname, name⟩ none, .goTail "UPDATE",
            .log .debug ("Calling [WaitUntilStackUpdateComplete] with parameters:" ++ " "
              ++ env.showDescribeStacksInput ⟨s.Stackname⟩ ++ "\n"),
            .waitUntilStackUpdateComplete ⟨s.Stackname⟩ (some e)], .ret (some e)⟩
        | none =>
          ⟨[.executeChangeSet ⟨s.Stackname, name⟩ none, .goTail "UPDATE",
            .log .debug ("Calling [WaitUntilStackUpdateComplete] with parameters:" ++ " "
              ++ env.showDescribeStacksInput ⟨s.Stackname⟩ ++ "\n"),
            .waitUntilStackUpdateComplete ⟨s.Stackname⟩ none, .doneSend], .ret none⟩ := by
  simp only [Change]
  cases h : env.executeChangeSet <;> cases hw : env.waitUntilStackUpdateComplete <;>
    simp [Change.execute, Exec.bind, emit, ret, returnIfErr, h, hw]

theorem Change_desc (fuel : Nat) (env : Env) (s : Stack) (name : String) :
    Change fuel env s "desc" name =
      match env.describeChangeSet 0 with
      | .fail e => ⟨[.describeChangeSet ⟨s.Stackname, name⟩ (.fail e)], .ret (some e)⟩
      | .ok resp =>
        match env.marshalIndent resp with
        | .fail e => ⟨[.describeChangeSet ⟨s.Stackname, name⟩ (.ok resp)], .ret (some e)⟩
        | .ok o => ⟨[.describeChangeSet ⟨s.Stackname, name⟩ (.ok resp), .printf (o ++ "\n")], .ret none⟩ := by
  simp only [Change]
  cases h : env.describeChangeSet 0 with
  | fail e => simp [Change.desc, Exec.bind, emit, ret, h]
  | ok resp => cases hm : env.marshalIndent resp <;> simp [Change.desc, Exec.bind, emit, ret, h, hm]

theorem Change_other (fuel : Nat) (env : Env) (s : Stack) (req name : String)
    (h1 : req ≠ "create") (h2 : req ≠ "rm") (h3 : req ≠ "list") (h4 : req ≠ "execute") (h5 : req ≠ "desc") :
    Change fuel env s req name = ⟨[], .ret none⟩ := by
  simp [Change, h1, h2, h3, h4, h5, Exec.bind, ret]


theorem quiet_of_not_controlPlane (tr : List Event) (h : ∀ ev ∈ tr, ev.isControlPlane = false) :
    ∀ ev ∈ tr, ev.failure = none := by
  intro ev hev
  cases hf : ev.failure with
  | none => rfl
  | some e =>
    have := failure_isControlPlane ev e hf
    rw [h ev hev] at this
    exact absurd this (by simp)

theorem Change_failStop (fuel : Nat) (env : Env) (s : Stack) (req name : String) :
    FailStop (fun _ e => e) (Change fuel env s req name).trace (Change fuel env s req name).res := by
  by_cases h1 : req = "create"
  · subst h1
    rcases create_shape fuel env s name with ⟨pre, e, hrun, hq⟩ |
      ⟨t, pre, rest, p, -, htr, hq, -, hnone, hsome, -⟩
    · rw [hrun]
      exact failStop_quiet _ _ _ (quiet_of_not_controlPlane _ hq)
    · rw [htr]
      apply failStop_append _ _ _ _ (quiet_of_not_controlPlane _ hq)
      cases hc : env.createChangeSet with
      | none =>
        obtain ⟨hr, hres⟩ := hnone hc
        simp only [FailStop, Event.failure]
        rw [hr, hres]
        exact pollLoop_failStop env t name _ fuel 0
      | some e =>
        obtain ⟨hr, hres⟩ := hsome e hc
        simp [FailStop, Event.failure, hr, hres]
  · by_cases h2 : req = "rm"
    · subst h2
      rw [Change_rm]
      cases env.deleteChangeSet <;> simp [FailStop, Event.failure]
    · by_cases h3 : req = "list"
      · subst h3
        rw [Change_list]
        cases env.listChangeSets with
        | fail e => simp [FailStop, Event.failure, Resp.err]
        | ok l =>
          simp only [FailStop, Event.failure, Resp.err]
          apply failStop_quiet
          intro ev hev
          simp only [List.mem_map] at hev
          obtain ⟨i, -, rfl⟩ := hev
          rfl
      · by_cases h4 : req = "execute"
        · subst h4
          rw [Change_execute]
          cases env.executeChangeSet <;> cases env.waitUntilStackUpdateComplete <;>
            simp [FailStop, Event.failure]
        · by_cases h5 : req = "desc"
          · subst h5
            rw [Change_desc]
            cases env.describeChangeSet 0 with
            | fail e => simp [FailStop, Event.failure, Resp.err]
            | ok resp =>
              cases hm : env.marshalIndent resp <;> simp [FailStop, Event.failure, Resp.err, hm]
          · rw [Change_other fuel env s req name h1 h2 h3 h4 h5]
            simp [FailStop]


/-! ## Cancellation in `terminate` and in case "execute" -/

/-- Number of `done <- true` sends of `terminate` on an existing stack, by outcome: one when
`DeleteStack` fails, none when `DeleteStack` succeeds and the wait fails, one when both succeed. -/
theorem terminate_doneSend_count (env : Env) (s : Stack) (h : env.stackExists = true) :
    (terminate env s).trace.count .doneSend =
      match env.deleteStack, env.waitUntilStackDeleteComplete with
      | some _, _ => 1
      | none, some _ => 0
      | none, none => 1 := by
  rw [terminate_eval]
  cases hd : env.deleteStack <;> cases hw : env.waitUntilStackDeleteComplete <;> simp [h]

/-- Number of `done <- true` sends of case "execute" once `ExecuteChangeSet` has succeeded: none when
the wait fails, one when it succeeds. -/
theorem execute_doneSend_count (fuel : Nat) (env : Env) (s : Stack) (name : String)
    (h : env.executeChangeSet = none) :
    (Change fuel env s "execute" name).trace.count .doneSend =
      match env.waitUntilStackUpdateComplete with
      | some _ => 0
      | none => 1 := by
  rw [Change_execute]
  cases hw : env.waitUntilStackUpdateComplete <;> simp [h]

/-- C1: on the existing stack "web", with `DeleteStack` succeeding and `WaitUntilStackDeleteComplete`
failing with `boom`, `terminate` launches the "DELETE" tailer, returns `boom` and has sent nothing on
`done`: the cancellation send claimed for every outcome is missing on this path. -/
theorem terminate_wait_failure_skips_cancel :
    envDeleteWaitFails.stackExists = true ∧ envDeleteWaitFails.deleteStack = none ∧
    envDeleteWaitFails.waitUntilStackDeleteComplete = some boom ∧
    (terminate envDeleteWaitFails web).res = .ret (some boom) ∧
    Event.goTailWait "DELETE" ∈ (terminate envDeleteWaitFails web).trace ∧
    (terminate envDeleteWaitFails web).trace.count .doneSend = 0 := by
  decide

/-- C2: with `ExecuteChangeSet` succeeding and `WaitUntilStackUpdateComplete` failing with `boom`,
`Change("execute", "cs1")` launches the "UPDATE" tailer, returns `boom` and has sent nothing on
`done`: the cancellation send claimed after every return of the wait is missing on this path. -/
theorem execute_wait_failure_skips_cancel :
    envUpdateWaitFails.executeChangeSet = none ∧
    envUpdateWaitFails.waitUntilStackUpdateComplete = some boom ∧
    (Change 0 envUpdateWaitFails web "execute" "cs1").res = .ret (some boom) ∧
    Event.goTail "UPDATE" ∈ (Change 0 envUpdateWaitFails web "execute" "cs1").trace ∧
    (Change 0 envUpdateWaitFails web "execute" "cs1").trace.count .doneSend = 0 := by
  decide

/-- C3 (as stated, refuted): with `ExecuteChangeSet` failing, the run of `Change("execute", "cs1")`
launches no "UPDATE" tailer and sends nothing on `done`. -/
theorem execute_failure_no_tailer_example :
    envExecuteFails.executeChangeSet = some boom ∧
    Event.goTail "UPDATE" ∉ (Change 0 envExecuteFails web "execute" "cs1").trace ∧
    (Change 0 envExecuteFails web "execute" "cs1").trace.count .doneSend = 0 := by
  decide

/-- C3 (amended): whenever `ExecuteChangeSet` fails with `e`, the run of `Change("execute", name)`
consists of that call alone: no tailer is launched, nothing is sent on `done`,
`WaitUntilStackUpdateComplete` is not called, and `Change` returns `e`. -/
theorem execute_failure_run (fuel : Nat) (env : Env) (s : Stack) (name : String) (e : Error)
    (h : env.executeChangeSet = some e) :
    (Change fuel env s "execute" name).trace = [.executeChangeSet ⟨s.Stackname, name⟩ (some e)] ∧
    (Change fuel env s "execute" name).res = .ret (some e) ∧
    ∀ ev ∈ (Change fuel env s "execute" name).trace,
      ev.isTailLaunch = false ∧ ev ≠ .doneSend ∧ ∀ q r, ev ≠ .waitUntilStackUpdateComplete q r := by
  rw [Change_execute]
  simp [h, Event.isTailLaunch]

/-- Witness of C3 (amended): `ExecuteChangeSet` fails with `boom` on stack "web". -/
theorem execute_failure_run_witness :
    (Change 0 envExecuteFails web "execute" "cs1").trace = [.executeChangeSet ⟨"web", "cs1"⟩ (some boom)] ∧
    (Change 0 envExecuteFails web "execute" "cs1").res = .ret (some boom) :=
  ⟨(execute_failure_run 0 envExecuteFails web "cs1" boom rfl).1,
    (execute_failure_run 0 envExecuteFails web "cs1" boom rfl).2.1⟩

/-- C4: when `StackExists()` is false, `terminate` returns nil, and its trace holds no `DeleteStack`
call, no `WaitUntilStackDeleteComplete` call, no tailer launch and no send on `done`; the existence
check is its only Control Plane call. -/
theorem terminate_absent_noop (env : Env) (s : Stack) (h : env.stackExists = false) :
    (terminate env s).res = .ret none ∧
    ∀ ev ∈ (terminate env s).trace,
      (∀ q r, ev ≠ .deleteStack q r) ∧ (∀ q r, ev ≠ .waitUntilStackDeleteComplete q r) ∧
      ev.isTailLaunch = false ∧ ev ≠ .doneSend ∧
      (ev.isControlPlane = true → ev = .stackExists false) := by
  rw [terminate_eval]
  simp [h, Event.isTailLaunch, Event.isControlPlane]

/-- Witness of C4: stack "web" does not exist remotely. -/
theorem terminate_absent_noop_witness :
    (terminate envAbsent web).res = .ret none ∧
    ∀ ev ∈ (terminate envAbsent web).trace,
      (∀ q r, ev ≠ .deleteStack q r) ∧ (∀ q r, ev ≠ .waitUntilStackDeleteComplete q r) ∧
      ev.isTailLaunch = false ∧ ev ≠ .doneSend ∧
      (ev.isControlPlane = true → ev = .stackExists false) :=
  terminate_absent_noop envAbsent web rfl


/-! ## Case "create": the poll loop -/

/-- C5: in a run of `Change("create", name)` whose `CreateChangeSet` call succeeded, if the describe
responses 0..n-1 succeed with non-terminal statuses and response n succeeds with CREATE_COMPLETE or
FAILED, then (with a loop budget above n) `Change` returns nil and exactly the n+1 describe calls
answered by responses 0..n are issued, the last being the terminal one. -/
theorem create_poll_stops_at_first_terminal (fuel : Nat) (env : Env) (s : Stack) (name : String)
    (p : CreateChangeSetInput) (n : Nat)
    (hcall : Event.createChangeSet p none ∈ (Change fuel env s "create" name).trace)
    (hpre : ∀ j, j < n → ∃ r, env.describeChangeSet j = .ok r ∧ ¬ terminalStatus r.Status)
    (hlast : ∃ r, env.describeChangeSet n = .ok r ∧ terminalStatus r.Status)
    (hfuel : n < fuel) :
    (Change fuel env s "create" name).res = .ret none ∧
    describes (Change fuel env s "create" name).trace = (List.range (n + 1)).map env.describeChangeSet ∧
    (describes (Change fuel env s "create" name).trace).length = n + 1 := by
  rcases create_shape fuel env s name with ⟨pre, e, hrun, hq⟩ |
    ⟨t, pre, rest, p0, -, htr, hq, hk, hnone, -, -⟩
  · rw [hrun] at hcall
    have := hq _ hcall
    simp [Event.isControlPlane] at this
  · rw [htr] at hcall
    obtain ⟨-, hc⟩ := create_call_unique pre rest p0 p none _ _ hq hk hcall
    obtain ⟨hr, hres⟩ := hnone hc.symm
    have hpre0 : ∀ j, j < n → ∃ r, env.describeChangeSet (0 + j) = .ok r ∧ ¬ terminalStatus r.Status := by
      simpa using hpre
    have hlast0 : ∃ r, env.describeChangeSet (0 + n) = .ok r ∧ terminalStatus r.Status := by
      simpa using hlast
    obtain ⟨h1, h2⟩ := pollLoop_stop env t name ⟨t.Stackname, name⟩ n fuel 0 hfuel hpre0 hlast0
    have hd : describes (Change fuel env s "create" name).trace
        = (List.range (n + 1)).map env.describeChangeSet := by
      rw [htr, hr]
      have hpq : describes pre = [] := by
        simp only [describes, List.filterMap_eq_nil_iff]
        intro ev hev
        have := hq ev hev
        cases ev <;> simp [Event.isControlPlane] at this <;> rfl
      simp only [describes] at hpq h2 ⊢
      rw [List.filterMap_append, hpq]
      simp only [createLoop, List.filterMap_cons, Event.describeResp, List.nil_append]
      rw [h2]
      simp
    refine ⟨?_, hd, by rw [hd]; simp⟩
    rw [hres]
    simp only [createLoop]
    rw [h1]
    rfl


/-- Witness of C5: bucket unset, first describe response pending, second FAILED: two describe calls. -/
theorem create_poll_stops_at_first_terminal_witness :
    (Change 2 envOk web "create" "cs1").res = .ret none ∧
    describes (Change 2 envOk web "create" "cs1").trace = (List.range (1 + 1)).map envOk.describeChangeSet ∧
    (describes (Change 2 envOk web "create" "cs1").trace).length = 1 + 1 :=
  create_poll_stops_at_first_terminal 2 envOk web "cs1"
    { StackName := "web", ChangeSetName := "cs1", TemplateBody := some "AWS::S3::Bucket" } 1
    (by decide)
    (fun j hj => ⟨{ Status := "CREATE_PENDING" }, by
      obtain rfl : j = 0 := by omega
      exact ⟨rfl, by decide⟩⟩)
    ⟨{ Status := "FAILED" }, rfl, by decide⟩
    (by decide)

theorem pollLoop_rounds (env : Env) (s : Stack) (name : String) (fuel : Nat) :
    ∀ i, (∀ j, j < fuel → ∃ r, env.describeChangeSet (i + j) = .ok r ∧ ¬ terminalStatus r.Status) →
      ∃ rs : List DescribeChangeSetOutput,
        rs.map Resp.ok = (List.range fuel).map (fun j => env.describeChangeSet (i + j)) ∧
        (pollLoop env s name { StackName := s.Stackname, ChangeSetName := name } fuel i).trace
          = pollRounds env s name rs := by
  induction fuel with
  | zero => intro i _; exact ⟨[], by simp, by simp [pollLoop_zero, pollRounds]⟩
  | succ f ih =>
    intro i hpre
    obtain ⟨r, hr, ht⟩ := hpre 0 (by omega)
    have hr : env.describeChangeSet i = .ok r := by simpa using hr
    have hpre2 : ∀ j, j < f → ∃ r, env.describeChangeSet (i + 1 + j) = .ok r ∧ ¬ terminalStatus r.Status := by
      intro j hj
      have := hpre (j + 1) (by omega)
      rwa [show i + (j + 1) = i + 1 + j by omega] at this
    obtain ⟨rs, h1, h2⟩ := ih (i + 1) hpre2
    refine ⟨r :: rs, ?_, ?_⟩
    · rw [List.range_succ_eq_map]
      simp only [List.map_cons, List.map_map, Function.comp_def, Nat.add_zero, hr, h1]
      congr 1
      apply List.map_congr_left
      intro a _
      congr 1
      omega
    · rw [pollLoop_again env s name _ f i r hr ht, h2]
      rfl

theorem describes_of_shape (pre rest : List Event) (p : CreateChangeSetInput) (r : Option Error)
    (hq : ∀ ev ∈ pre, ev.isControlPlane = false) :
    describes (pre ++ .createChangeSet p r :: rest) = describes rest := by
  have hpq : describes pre = [] := by
    simp only [describes, List.filterMap_eq_nil_iff]
    intro ev hev
    have := hq ev hev
    cases ev <;> simp [Event.isControlPlane] at this <;> rfl
  simp only [describes] at hpq ⊢
  rw [List.filterMap_append, hpq]
  simp [Event.describeResp]

/-- While only non-terminal statuses are reported, a run started with budget `fuel` is still looping
after `fuel` describe calls. -/
theorem create_spins (fuel : Nat) (env : Env) (s : Stack) (name : String) (p : CreateChangeSetInput)
    (hcall : Event.createChangeSet p none ∈ (Change fuel env s "create" name).trace)
    (hpre : ∀ j, j < fuel → ∃ r, env.describeChangeSet j = .ok r ∧ ¬ terminalStatus r.Status) :
    (Change fuel env s "create" name).res = .spin ∧
    describes (Change fuel env s "create" name).trace = (List.range fuel).map env.describeChangeSet ∧
    ∃ t pre rs, env.deployTimeParser s = .ok t ∧ (∀ ev ∈ pre, ev.isControlPlane = false) ∧
      rs.map Resp.ok = (List.range fuel).map env.describeChangeSet ∧
      (Change fuel env s "create" name).trace = pre ++ .createChangeSet p none :: pollRounds env t name rs := by
  rcases create_shape fuel env s name with ⟨pre, e, hrun, hq⟩ |
    ⟨t, pre, rest, p0, hp, htr, hq, hk, hnone, -, -⟩
  · rw [hrun] at hcall
    have := hq _ hcall
    simp [Event.isControlPlane] at this
  · have hcall2 := hcall
    rw [htr] at hcall2
    obtain ⟨hpp, hc⟩ := create_call_unique pre rest p0 p none _ _ hq hk hcall2
    obtain ⟨hr, hres⟩ := hnone hc.symm
    have hpre0 : ∀ j, j < fuel → ∃ r, env.describeChangeSet (0 + j) = .ok r ∧ ¬ terminalStatus r.Status := by
      simpa using hpre
    obtain ⟨h1, h2⟩ := pollLoop_spin env t name ⟨t.Stackname, name⟩ fuel 0 hpre0
    obtain ⟨rs, h3, h4⟩ := pollLoop_rounds env t name fuel 0 hpre0
    refine ⟨?_, ?_, t, pre, rs, hp, hq, by simpa using h3, ?_⟩
    · rw [hres]
      simp only [createLoop]
      rw [h1]
      rfl
    · rw [htr, describes_of_shape pre rest p0 _ hq, hr]
      simp only [createLoop]
      rw [h2]
      simp
    · rw [htr, hr, ← hc, hpp]
      simp only [createLoop]
      rw [h4]

/-- C6 (as stated, refuted): "CREATE_IN_PROGRESS" is outside the vocabulary PENDING, CREATE_COMPLETE,
FAILED, EXECUTE_COMPLETE, DELETED; when the first describe call reports it and the second reports
CREATE_COMPLETE, `Change("create", "cs1")` polls again and returns nil, not an error; when every
describe call reports it, the run is still looping whatever the budget. -/
theorem unrecognised_status_polls_again :
    "CREATE_IN_PROGRESS" ∉ ["PENDING", "CREATE_COMPLETE", "FAILED", "EXECUTE_COMPLETE", "DELETED"] ∧
    (Change 2 envInProgressThenComplete web "create" "cs1").res = .ret none ∧
    describes (Change 2 envInProgressThenComplete web "create" "cs1").trace =
      [.ok { Status := "CREATE_IN_PROGRESS" }, .ok { Status := "CREATE_COMPLETE" }] ∧
    (∀ fuel, (Change fuel envInProgressForever web "create" "cs1").res = .spin ∧
      (describes (Change fuel envInProgressForever web "create" "cs1").trace).length = fuel) := by
  refine ⟨by decide, by decide, by decide, fun fuel => ?_⟩
  have hcall : Event.createChangeSet
      { StackName := "web", ChangeSetName := "cs1", TemplateBody := some "AWS::S3::Bucket" } none
      ∈ (Change fuel envInProgressForever web "create" "cs1").trace := by
    rw [Change_create, create_inline fuel envInProgressForever web web "cs1" rfl rfl]
    refine List.mem_append_right _ ?_
    have hp : withCapabilities web
        { StackName := web.Stackname, ChangeSetName := "cs1", TemplateBody := some web.Template } =
        { StackName := "web", ChangeSetName := "cs1", TemplateBody := some "AWS::S3::Bucket" } := by decide
    rw [hp]
    exact List.Mem.head _
  obtain ⟨h1, h2, -⟩ := create_spins fuel envInProgressForever web "cs1" _ hcall
    (fun j _ => ⟨{ Status := "CREATE_IN_PROGRESS" }, rfl, by decide⟩)
  exact ⟨h1, by rw [h2]; simp⟩

/-- C6 (amended): in a run of `Change("create", name)` whose `CreateChangeSet` call succeeded, as long
as the describe responses carry statuses other than CREATE_COMPLETE and FAILED (inside the vocabulary
or not), the operation neither fails nor returns: after `fuel` such responses it is still looping, and
what it has done since the `CreateChangeSet` call is, for each response in turn, the describe call,
the `Log.Info` line with that status, and a one-second sleep, nothing else (`pollRounds`), so `fuel`
describe calls in all. In particular, if every response is such, it never returns. -/
theorem create_poll_continues_on_nonterminal (fuel : Nat) (env : Env) (s : Stack) (name : String)
    (p : CreateChangeSetInput)
    (hcall : Event.createChangeSet p none ∈ (Change fuel env s "create" name).trace)
    (hpre : ∀ j, j < fuel → ∃ r, env.describeChangeSet j = .ok r ∧
      r.Status ≠ "CREATE_COMPLETE" ∧ r.Status ≠ "FAILED") :
    (Change fuel env s "create" name).res = .spin ∧
    describes (Change fuel env s "create" name).trace = (List.range fuel).map env.describeChangeSet ∧
    (describes (Change fuel env s "create" name).trace).length = fuel ∧
    ∃ t pre rs, env.deployTimeParser s = .ok t ∧ (∀ ev ∈ pre, ev.isControlPlane = false) ∧
      rs.map Resp.ok = (List.range fuel).map env.describeChangeSet ∧
      (Change fuel env s "create" name).trace = pre ++ .createChangeSet p none :: pollRounds env t name rs ∧
      ∀ r ∈ rs,
        [Event.describeChangeSet { StackName := t.Stackname, ChangeSetName := name } (.ok r),
          Event.log .info ("Creating Change-Set: [" ++ name ++ "] - " ++ env.colorMap r.Status ++ " - "
            ++ t.Stackname),
          Event.sleep 1] <:+: (Change fuel env s "create" name).trace := by
  have hpre2 : ∀ j, j < fuel → ∃ r, env.describeChangeSet j = .ok r ∧ ¬ terminalStatus r.Status := by
    intro j hj
    obtain ⟨r, hr, h1, h2⟩ := hpre j hj
    exact ⟨r, hr, fun ht => ht.elim h1 h2⟩
  obtain ⟨h1, h2, t, pre, rs, hp, hq, hrs, htr⟩ := create_spins fuel env s name p hcall hpre2
  refine ⟨h1, h2, by rw [h2]; simp, t, pre, rs, hp, hq, hrs, htr, ?_⟩
  intro r hr
  rw [htr]
  obtain ⟨a, b, rfl⟩ := List.append_of_mem hr
  refine ⟨pre ++ .createChangeSet p none :: pollRounds env t name a, pollRounds env t name b, ?_⟩
  have happ : ∀ xs ys : List DescribeChangeSetOutput,
      pollRounds env t name (xs ++ ys) = pollRounds env t name xs ++ pollRounds env t name ys := by
    intro xs ys
    induction xs with
    | nil => rfl
    | cons x xs ih => simp [pollRounds, ih]
  rw [happ]
  simp [pollRounds]

/-- Witness of C6 (amended): every describe call reports "CREATE_IN_PROGRESS"; after 3 calls, each
followed by its log line and a one-second sleep, the run is still looping. -/
theorem create_poll_continues_on_nonterminal_witness :
    (Change 3 envInProgressForever web "create" "cs1").res = .spin ∧
    describes (Change 3 envInProgressForever web "create" "cs1").trace
      = (List.range 3).map envInProgressForever.describeChangeSet ∧
    (describes (Change 3 envInProgressForever web "create" "cs1").trace).length = 3 ∧
    (Change 3 envInProgressForever web "create" "cs1").trace =
      [.deployTimeParser none, .log .debug "Updated Template:\nAWS::S3::Bucket",
        .createChangeSet
          { StackName := "web", ChangeSetName := "cs1", TemplateBody := some "AWS::S3::Bucket" } none,
        .describeChangeSet ⟨"web", "cs1"⟩ (.ok { Status := "CREATE_IN_PROGRESS" }),
        .log .info "Creating Change-Set: [cs1] - CREATE_IN_PROGRESS - web", .sleep 1,
        .describeChangeSet ⟨"web", "cs1"⟩ (.ok { Status := "CREATE_IN_PROGRESS" }),
        .log .info "Creating Change-Set: [cs1] - CREATE_IN_PROGRESS - web", .sleep 1,
        .describeChangeSet ⟨"web", "cs1"⟩ (.ok { Status := "CREATE_IN_PROGRESS" }),
        .log .info "Creating Change-Set: [cs1] - CREATE_IN_PROGRESS - web", .sleep 1] :=
  ⟨(create_poll_continues_on_nonterminal 3 envInProgressForever web "cs1"
      { StackName := "web", ChangeSetName := "cs1", TemplateBody := some "AWS::S3::Bucket" }
      (by decide)
      (fun _ _ => ⟨{ Status := "CREATE_IN_PROGRESS" }, rfl, by decide, by decide⟩)).1,
    (create_poll_continues_on_nonterminal 3 envInProgressForever web "cs1"
      { StackName := "web", ChangeSetName := "cs1", TemplateBody := some "AWS::S3::Bucket" }
      (by decide)
      (fun _ _ => ⟨{ Status := "CREATE_IN_PROGRESS" }, rfl, by decide, by decide⟩)).2.1,
    (create_poll_continues_on_nonterminal 3 envInProgressForever web "cs1"
      { StackName := "web", ChangeSetName := "cs1", TemplateBody := some "AWS::S3::Bucket" }
      (by decide)
      (fun _ _ => ⟨{ Status := "CREATE_IN_PROGRESS" }, rfl, by decide, by decide⟩)).2.2.1,
    by decide⟩


/-- C7 (as stated, refuted): stack "web", change-set "cs1", bucket unset, describe responses
[CREATE_PENDING, FAILED]: `Change("create", "cs1")` makes two describe calls and returns nil, not an
error. -/
theorem create_failed_returns_nil_example :
    web.Bucket = "" ∧
    describes (Change 2 envOk web "create" "cs1").trace =
      [.ok { Status := "CREATE_PENDING" }, .ok { Status := "FAILED" }] ∧
    (Change 2 envOk web "create" "cs1").res = .ret none := by
  decide

/-- C7 (amended): whenever the polling of `Change("create", name)` observes the status FAILED, `Change`
returns nil (no error); the change-set name is referenced by the `Log.Info` line written for that
observation, "Creating Change-Set: [name] - FAILED (coloured) - stackname". -/
theorem create_failed_returns_nil (fuel : Nat) (env : Env) (s : Stack) (name : String)
    (dq : DescribeChangeSetInput) (r : DescribeChangeSetOutput)
    (hseen : Event.describeChangeSet dq (.ok r) ∈ (Change fuel env s "create" name).trace)
    (hst : r.Status = "FAILED") :
    (Change fuel env s "create" name).res = .ret none ∧
    ∃ t, env.deployTimeParser s = .ok t ∧
      Event.log .info ("Creating Change-Set: [" ++ name ++ "] - " ++ env.colorMap "FAILED" ++ " - " ++ t.Stackname)
        ∈ (Change fuel env s "create" name).trace ∧
      name.data <:+:
        ("Creating Change-Set: [" ++ name ++ "] - " ++ env.colorMap "FAILED" ++ " - " ++ t.Stackname).data := by
  rcases create_shape fuel env s name with ⟨pre, e, hrun, hq⟩ |
    ⟨t, pre, rest, p0, hp, htr, hq, hk, hnone, hsome, -⟩
  · rw [hrun] at hseen
    have := hq _ hseen
    simp [Event.isControlPlane] at this
  · have hin := hseen
    rw [htr] at hin
    have hrest := create_describe_in_loop pre rest p0 _ dq _ hq hin
    cases hc : env.createChangeSet with
    | some e =>
      rw [(hsome e hc).1] at hrest
      simp at hrest
    | none =>
      obtain ⟨hr, hres⟩ := hnone hc
      rw [hr] at hrest
      obtain ⟨h1, h2⟩ := pollLoop_seen env t name ⟨t.Stackname, name⟩ fuel 0 dq r hrest (Or.inr hst)
      refine ⟨?_, t, hp, ?_, ?_⟩
      · rw [hres]
        simp only [createLoop]
        rw [h1]
        rfl
      · rw [htr, hr, ← hst]
        exact List.mem_append_right _ (List.mem_cons_of_mem _ h2)
      · exact ⟨"Creating Change-Set: [".data,
          ("] - " ++ env.colorMap "FAILED" ++ " - " ++ t.Stackname).data, by simp [String.data_append]⟩

/-- Witness of C7 (amended): the scenario of the claim. -/
theorem create_failed_returns_nil_witness :
    Event.describeChangeSet ⟨"web", "cs1"⟩ (.ok { Status := "FAILED" })
      ∈ (Change 2 envOk web "create" "cs1").trace ∧
    (Change 2 envOk web "create" "cs1").res = .ret none ∧
    Event.log .info "Creating Change-Set: [cs1] - FAILED - web" ∈ (Change 2 envOk web "create" "cs1").trace :=
  ⟨by decide,
    (create_failed_returns_nil 2 envOk web "cs1" ⟨"web", "cs1"⟩ { Status := "FAILED" } (by decide) rfl).1,
    by decide⟩


/-! ## Case "create": the request -/

theorem bucketHead_mem (env : Env) (t : Stack) :
    Event.bucketExists t.Bucket env.bucketExists.1 env.bucketExists.2 ∈ bucketHead env t ∧
    (env.bucketExists.1 = false → Event.bucketCreate t.Bucket env.bucketCreate ∈ bucketHead env t) ∧
    (env.bucketExists.1 = true → ∀ e, Event.bucketCreate t.Bucket e ∉ bucketHead env t) := by
  unfold bucketHead bucketEvents
  cases env.bucketExists.2 <;> cases env.bucketExists.1 <;> simp

/-- C8: the request of every `CreateChangeSet` call made by `Change("create", name)` carries exactly
the capabilities CAPABILITY_IAM and CAPABILITY_NAMED_IAM if the template (as left by
`DeployTimeParser`) contains "AWS::IAM" as a substring, and no capabilities otherwise. -/
theorem create_capabilities (fuel : Nat) (env : Env) (s : Stack) (name : String)
    (p : CreateChangeSetInput) (r : Option Error)
    (h : Event.createChangeSet p r ∈ (Change fuel env s "create" name).trace) :
    ∃ t, env.deployTimeParser s = .ok t ∧
      ("AWS::IAM".data <:+: t.Template.data →
        p.Capabilities = ["CAPABILITY_IAM", "CAPABILITY_NAMED_IAM"]) ∧
      (¬ "AWS::IAM".data <:+: t.Template.data → p.Capabilities = []) := by
  rcases create_shape fuel env s name with ⟨pre, e, hrun, hq⟩ |
    ⟨t, pre, rest, p0, hp, htr, hq, hk, -, -, -, -, hcap, -⟩
  · rw [hrun] at h
    have := hq _ h
    simp [Event.isControlPlane] at this
  · rw [htr] at h
    obtain ⟨rfl, -⟩ := create_call_unique pre rest p0 p r _ _ hq hk h
    refine ⟨t, hp, ?_, ?_⟩
    · intro hin
      rw [hcap]
      simp [stringsContains, hin, CapabilityCapabilityIam, CapabilityCapabilityNamedIam]
    · intro hout
      rw [hcap]
      simp [stringsContains, hout]

/-- Witness of C8: a template containing "AWS::IAM::Role" gets both capabilities, a template
containing only "AWS::S3::Bucket" gets none. -/
theorem create_capabilities_witness :
    (Event.createChangeSet
        { StackName := "web", ChangeSetName := "cs1",
          TemplateURL := some "https://s3.amazonaws.com/my-bucket/web.template",
          Capabilities := ["CAPABILITY_IAM", "CAPABILITY_NAMED_IAM"] } none
      ∈ (Change 2 envOk webIam "create" "cs1").trace ∧
      "AWS::IAM".data <:+: webIam.Template.data) ∧
    (Event.createChangeSet
        { StackName := "web", ChangeSetName := "cs1", TemplateBody := some "AWS::S3::Bucket",
          Capabilities := [] } none
      ∈ (Change 2 envOk web "create" "cs1").trace ∧
      ¬ "AWS::IAM".data <:+: web.Template.data) ∧
    ∃ t, envOk.deployTimeParser webIam = .ok t ∧
      ("AWS::IAM".data <:+: t.Template.data →
        ["CAPABILITY_IAM", "CAPABILITY_NAMED_IAM"] = ["CAPABILITY_IAM", "CAPABILITY_NAMED_IAM"]) ∧
      (¬ "AWS::IAM".data <:+: t.Template.data → ["CAPABILITY_IAM", "CAPABILITY_NAMED_IAM"] = []) :=
  ⟨⟨by decide, by decide⟩, ⟨by decide, by decide⟩,
    create_capabilities 2 envOk webIam "cs1"
      { StackName := "web", ChangeSetName := "cs1",
        TemplateURL := some "https://s3.amazonaws.com/my-bucket/web.template",
        Capabilities := ["CAPABILITY_IAM", "CAPABILITY_NAMED_IAM"] } none (by decide)⟩

/-- C9: the request of every `CreateChangeSet` call made by `Change("create", name)` carries exactly
one template source. With no bucket it is the inline template body, and the run makes no Object
Store call. With a bucket it is the URL returned by `bucket.S3write` for the key
"stackname_Y-M-D_hm.template", uploaded just before the call, the inline body is absent, the
existence check precedes the upload, and the bucket was created before the upload if (and only if)
the check reported it absent. -/
theorem create_template_source (fuel : Nat) (env : Env) (s : Stack) (name : String)
    (p : CreateChangeSetInput) (r : Option Error)
    (h : Event.createChangeSet p r ∈ (Change fuel env s "create" name).trace) :
    ∃ t, env.deployTimeParser s = .ok t ∧
      (t.Bucket = "" →
        p.TemplateBody = some t.Template ∧ p.TemplateURL = none ∧
        ∀ ev ∈ (Change fuel env s "create" name).trace, ev.isObjectStore = false) ∧
      (t.Bucket ≠ "" →
        ∃ url pre post,
          (Change fuel env s "create" name).trace =
            pre ++ .s3write t.Bucket
              (t.Stackname ++ "_" ++ (fmtD env.timeNow.Year ++ "-" ++ fmtD env.timeNow.Month ++ "-"
                ++ fmtD env.timeNow.Day ++ "_" ++ fmtD env.timeNow.Hour ++ fmtD env.timeNow.Minute)
                ++ ".template")
              t.Template (.ok url) :: .createChangeSet p r :: post ∧
          p.TemplateURL = some url ∧ p.TemplateBody = none ∧
          Event.bucketExists t.Bucket env.bucketExists.1 env.bucketExists.2 ∈ pre ∧
          (env.bucketExists.1 = false → Event.bucketCreate t.Bucket none ∈ pre) ∧
          (env.bucketExists.1 = true → ∀ e, Event.bucketCreate t.Bucket e ∉ pre) ∧
          (∀ ev ∈ post, ev.isObjectStore = false)) := by
  rcases create_shape fuel env s name with ⟨pre, e, hrun, hq⟩ |
    ⟨t, pre, rest, p0, hp, htr, hq, hk, -, -, -, -, -, hsrc⟩
  · rw [hrun] at h
    have := hq _ h
    simp [Event.isControlPlane] at this
  · have hin := h
    rw [htr] at hin
    obtain ⟨rfl, rfl⟩ := create_call_unique pre rest p0 p r _ _ hq hk hin
    have hrest : ∀ ev ∈ rest, ev.isObjectStore = false := fun ev hev => (loopEvent_kinds _ ev (hk ev hev)).1
    refine ⟨t, hp, ?_, ?_⟩
    · intro hb
      rcases hsrc with ⟨-, hpre, hbody, hurl⟩ | ⟨hnb, -⟩
      · refine ⟨hbody, hurl, ?_⟩
        rw [htr, hpre]
        intro ev hev
        rcases List.mem_append.1 hev with h1 | h1
        · exact (inlineHead_quiet t ev h1).2
        · rcases List.mem_cons.1 h1 with h2 | h2
          · subst h2; rfl
          · exact hrest ev h2
      · exact absurd hb hnb
    · intro hb
      rcases hsrc with ⟨hb0, -⟩ | ⟨-, url, -, hc, hpre, hbody, hurl⟩
      · exact absurd hb0 hb
      · obtain ⟨m1, m2, m3⟩ := bucketHead_mem env t
        refine ⟨url, bucketHead env t, rest, ?_, hurl, hbody, m1, ?_, m3, hrest⟩
        · rw [htr, hpre]
          simp [templateKey]
        · intro hx
          have := m2 hx
          rwa [hc hx] at this

/-- Witness of C9: stack "web" with bucket "my-bucket", absent remotely: the bucket is created, the
template is uploaded under "web_2017-3-9_145.template", and the request carries the returned URL. -/
theorem create_template_source_witness :
    Event.createChangeSet
        { StackName := "web", ChangeSetName := "cs1",
          TemplateURL := some "https://s3.amazonaws.com/my-bucket/web.template",
          Capabilities := ["CAPABILITY_IAM", "CAPABILITY_NAMED_IAM"] } none
      ∈ (Change 2 envOk webIam "create" "cs1").trace ∧
    (Change 2 envOk webIam "create" "cs1").trace.take 7 =
      [.deployTimeParser none, .log .debug "Updated Template:\nType: AWS::IAM::Role",
        .bucketExists "my-bucket" false none, .log .info "Creating Bucket [my-bucket]",
        .bucketCreate "my-bucket" none,
        .s3write "my-bucket" "web_2017-3-9_145.template" "Type: AWS::IAM::Role"
          (.ok "https://s3.amazonaws.com/my-bucket/web.template"),
        .createChangeSet
          { StackName := "web", ChangeSetName := "cs1",
            TemplateURL := some "https://s3.amazonaws.com/my-bucket/web.template",
            Capabilities := ["CAPABILITY_IAM", "CAPABILITY_NAMED_IAM"] } none] ∧
    ∃ url pre post,
      (Change 2 envOk webIam "create" "cs1").trace =
        pre ++ .s3write "my-bucket" (templateKey envOk webIam) "Type: AWS::IAM::Role" (.ok url) ::
          .createChangeSet
            { StackName := "web", ChangeSetName := "cs1",
              TemplateURL := some "https://s3.amazonaws.com/my-bucket/web.template",
              Capabilities := ["CAPABILITY_IAM", "CAPABILITY_NAMED_IAM"] } none :: post ∧
      Event.bucketExists "my-bucket" false none ∈ pre ∧ Event.bucketCreate "my-bucket" none ∈ pre :=
  ⟨by decide, by decide, by
    obtain ⟨t, ht, -, h2⟩ := create_template_source 2 envOk webIam "cs1"
      { StackName := "web", ChangeSetName := "cs1",
        TemplateURL := some "https://s3.amazonaws.com/my-bucket/web.template",
        Capabilities := ["CAPABILITY_IAM", "CAPABILITY_NAMED_IAM"] } none (by decide)
    obtain rfl : webIam = t := Resp.ok.inj ht
    obtain ⟨url, pre, post, htr, -, -, hx, hc, -, -⟩ := h2 (by decide)
    exact ⟨url, pre, post, htr, hx, hc rfl⟩⟩


/-! ## Failed Control Plane calls -/

/-- C10 (as stated, refuted): when `DeleteChangeSet` fails with `boom`, `Change("rm", "cs1")` returns
`boom` itself; the returned message "boom" does not contain the operation name. -/
theorem rm_failure_unwrapped_example :
    (Change 0 envRmFails web "rm" "cs1").trace = [.deleteChangeSet ⟨"cs1", "web"⟩ (some boom)] ∧
    (Change 0 envRmFails web "rm" "cs1").res = .ret (some boom) ∧
    boom.msg = "boom" ∧ ¬ "rm".data <:+: boom.msg.data := by
  decide

/-- C10 (amended): when a Control Plane call made by `Change` (any request kind) or by `terminate`
fails with error `e`, no Control Plane call follows it and the operation returns `e` itself,
unwrapped; the one exception is a `DeleteStack` failure in `terminate`, which is returned as a new
error with message "Deleting failed:  " followed by `e`'s message and a newline. -/
theorem failed_call_returns_error (fuel : Nat) (env : Env) (s : Stack) (req name : String)
    (pre post : List Event) (ev : Event) (e : Error) (hfail : ev.failure = some e) :
    ((Change fuel env s req name).trace = pre ++ ev :: post →
      (∀ x ∈ post, x.isControlPlane = false) ∧ (Change fuel env s req name).res = .ret (some e)) ∧
    ((terminate env s).trace = pre ++ ev :: post →
      (∀ x ∈ post, x.isControlPlane = false) ∧
      (terminate env s).res = .ret (some
        (match ev with
         | .deleteStack _ _ => ⟨"Deleting failed: " ++ " " ++ e.msg ++ "\n"⟩
         | _ => e))) := by
  constructor
  · intro h
    exact failStop_split (fun _ e => e) _ ev post e hfail pre _ (Change_failStop fuel env s req name) h
  · intro h
    have := failStop_split terminateError _ ev post e hfail pre _ (terminate_failStop env s) h
    refine ⟨this.1, ?_⟩
    rw [this.2]
    cases ev <;> rfl

/-- Witness of C10 (amended): a failed `DeleteChangeSet` in "rm", and a failed `DeleteStack` in
`terminate`, which is followed by the send on `done` only. -/
theorem failed_call_returns_error_witness :
    (Change 0 envRmFails web "rm" "cs1").res = .ret (some boom) ∧
    (terminate envDeleteFails web).res = .ret (some ⟨"Deleting failed:  boom\n"⟩) :=
  ⟨((failed_call_returns_error 0 envRmFails web "rm" "cs1" [] []
      (.deleteChangeSet ⟨"cs1", "web"⟩ (some boom)) boom rfl).1 (by decide)).2,
   ((failed_call_returns_error 0 envDeleteFails web "rm" "cs1"
      [.log .debug "terminate called for: [web]", .stackExists true, .goTailWait "DELETE",
        .log .debug "calling [DeleteStack] with parameters: web"]
      [.doneSend] (.deleteStack ⟨"web"⟩ (some boom)) boom rfl).2 (by decide)).2⟩

end Qaz
